import Mathlib

/-!
# SSNES presentation layer: input binding resolver and GL video compositor

A shallow embedding of `src/input/sdl.c` and `src/gfx/gl.c`.

Conventions of the embedding.

* C `int` / `unsigned` values are `Int` / `Nat`; a conversion between the two is
  written explicitly (`toU32`, `toI32`).
* What the platform (SDL, the C library, the settings record) answers is passed
  in as a record of values or functions; the code under study never computes it.
* A C pointer to a joystick is `Option Nat`: `none` is `NULL`, `some d` is the
  handle of device `d`.
* The arrays `joysticks[2]`, `num_axes[2]`, `num_buttons[2]` are functions of the
  slot index; an index of 2 or more is a slot past the end of the C array.
* Code whose C behaviour is undefined on some input (a table without terminator,
  a float-to-int conversion out of range) returns `none` there.
-/

namespace SSNES

/-! ## Machine integers -/

/-- Conversion of a C `int` to `unsigned` (32 bits). -/
def toU32 (x : Int) : Nat := (x % 4294967296).toNat

/-- Conversion of a C `unsigned` to `int` (32 bits, two's complement). -/
def toI32 (n : Nat) : Int :=
  if n % 4294967296 < 2147483648 then ((n % 4294967296 : Nat) : Int)
  else ((n % 4294967296 : Nat) : Int) - 4294967296

/-- The values a C `int` can hold. -/
def isInt32 (x : Int) : Prop := -2147483648 ≤ x ∧ x < 2147483648

instance (x : Int) : Decidable (isInt32 x) := by unfold isInt32; infer_instance

/-! ## Input backend: data model (`src/input/sdl.c`) -/

/-- The part of `g_settings.input` read by the input backend. The threshold is a
finite `float`, hence a rational number. -/
structure InputSettings where
  exit_emulator_key : Int
  axis_threshold : ℚ

/-- The axis-code macros used by `sdl_is_pressed`. Their definitions (in
`driver.h`) are not part of the sources at hand, so the code is embedded over an
arbitrary choice of them. -/
structure AxisCode where
  AXIS_NONE : Nat
  AXIS_NEG_GET : Nat → Nat
  AXIS_POS_GET : Nat → Nat

/-- Modelled from the spec: the sign-encoded axis code ("negative-direction and
positive-direction are distinct axis identifiers derived from one physical axis
index"). The macros are absent from the sources; this is the 16/16-bit packing,
the unused half holding `0xFFFF`. -/
def driverAxis : AxisCode where
  AXIS_NONE := 0xFFFFFFFF
  AXIS_NEG_GET := fun x => (x >>> 16) &&& 0xFFFF
  AXIS_POS_GET := fun x => x &&& 0xFFFF

/-- Modelled from the spec: code of the negative direction of physical axis `x`
(macro `AXIS_NEG`, absent from the sources). -/
def AXIS_NEG (x : Nat) : Nat := ((x <<< 16) ||| 0xFFFF) % 4294967296

/-- Modelled from the spec: code of the positive direction of physical axis `x`
(macro `AXIS_POS`, absent from the sources). -/
def AXIS_POS (x : Nat) : Nat := (x ||| 0xFFFF0000) % 4294967296

/-- Constants of `libsnes.hpp` and `driver.h` that the input backend compares
against; taken as parameters. -/
structure InputConsts where
  SNES_DEVICE_JOYPAD : Nat
  SNES_PORT_1 : Int
  SSNES_FAST_FORWARD_KEY : Int

/-- One binding entry: `struct snes_keybind`. -/
structure snes_keybind where
  id : Int
  key : Int
  joykey : Int
  joyaxis : Nat
deriving DecidableEq

/-- The backend state: `sdl_input_t`. -/
structure sdl_input_t where
  quitting : Bool
  joysticks : Nat → Option Nat
  num_axes : Nat → Nat
  num_buttons : Nat → Nat
  num_joysticks : Nat

/-- What SDL reports about the devices at the time of a query:
`SDL_GetKeyState`, `SDL_JoystickGetButton`, `SDL_JoystickGetAxis`. -/
structure DeviceState where
  num_keys : Int
  keymap : Int → Nat
  JoystickGetButton : Option Nat → Int → Nat
  JoystickGetAxis : Option Nat → Nat → Int

/-- Process-wide state written by the input backend. `ff_calls` logs the argument
of every call of `set_fast_forward_button`, oldest first. -/
structure Globals where
  fast_forward : Bool
  ff_calls : List Bool
deriving DecidableEq

/-- Modelled from the spec: `set_fast_forward_button` is defined outside the
sources at hand; the spec says the resolved value is written "into the
process-wide fast-forward toggle". -/
def set_fast_forward_button (g : Globals) (new_button_state : Bool) : Globals :=
  { fast_forward := new_button_state, ff_calls := g.ff_calls ++ [new_button_state] }

/-! ## Input backend: operations -/

/-- What the platform answers during `sdl_input_init`. -/
structure InitPlatform where
  calloc_ok : Bool
  SDL_Init : Int
  SDL_NumJoysticks : Int
  SDL_JoystickOpen : Nat → Option Nat
  SDL_JoystickNumAxes : Option Nat → Int
  SDL_JoystickNumButtons : Option Nat → Int

/-- The body of the `for` loop of `sdl_input_init`, with `n` iterations left and
loop counter `i`. -/
def sdl_input_init_loop (p : InitPlatform) : Nat → Nat → sdl_input_t → Option sdl_input_t
  | 0, _, sdl => some sdl
  | n + 1, i, sdl =>
    match p.SDL_JoystickOpen i with
    | none => none
    | some h =>
      sdl_input_init_loop p n (i + 1)
        { sdl with
          joysticks := Function.update sdl.joysticks i (some h)
          num_axes := Function.update sdl.num_axes i (toU32 (p.SDL_JoystickNumAxes (some h)))
          num_buttons :=
            Function.update sdl.num_buttons i (toU32 (p.SDL_JoystickNumButtons (some h))) }

/-- Embedding of `sdl_input_init`: `none` is the `NULL` result. -/
def sdl_input_init (p : InitPlatform) : Option sdl_input_t :=
  if !p.calloc_ok then none
  else if p.SDL_Init < 0 then none
  else
    let sdl : sdl_input_t :=
      { quitting := false
        joysticks := fun _ => none
        num_axes := fun _ => 0
        num_buttons := fun _ => 0
        num_joysticks := toU32 p.SDL_NumJoysticks }
    sdl_input_init_loop p sdl.num_joysticks 0 sdl

/-- Embedding of `sdl_key_pressed`. -/
def sdl_key_pressed (cfg : InputSettings) (d : DeviceState) (sdl : sdl_input_t) (key : Int) :
    Bool :=
  if sdl.quitting && key == cfg.exit_emulator_key then true
  else if key ≥ d.num_keys then false
  else d.keymap key != 0

/-- Embedding of `sdl_is_pressed`. The C parameter `port_num` is an `int` that the
only caller sets to 0 or 1. `(float)val / 0x8000` is exact for a 16-bit `val`, so
`scaled` is a rational number. -/
def sdl_is_pressed (m : AxisCode) (cfg : InputSettings) (d : DeviceState) (sdl : sdl_input_t)
    (port_num : Nat) (key : snes_keybind) : Bool :=
  if sdl_key_pressed cfg d sdl key.key then true
  else if port_num ≥ sdl.num_joysticks then false
  else if decide (toU32 key.joykey < sdl.num_buttons port_num)
      && d.JoystickGetButton (sdl.joysticks port_num) key.joykey != 0 then true
  else if key.joyaxis != m.AXIS_NONE then
    if decide (m.AXIS_NEG_GET key.joyaxis < sdl.num_axes port_num)
        && (let val := d.JoystickGetAxis (sdl.joysticks port_num) (m.AXIS_NEG_GET key.joyaxis)
            let scaled : ℚ := (val : ℚ) / 0x8000
            decide (scaled < -cfg.axis_threshold)) then true
    else if decide (m.AXIS_POS_GET key.joyaxis < sdl.num_axes port_num)
        && (let val := d.JoystickGetAxis (sdl.joysticks port_num) (m.AXIS_NEG_GET key.joyaxis)
            let scaled : ℚ := (val : ℚ) / 0x8000
            decide (scaled > cfg.axis_threshold)) then true
    else false
  else false

/-- The `for` loop of `sdl_input_state` over the rest of the table. `none` means
the loop ran past the end of the table without meeting the terminator. -/
def sdl_input_state_loop (m : AxisCode) (c : InputConsts) (cfg : InputSettings)
    (d : DeviceState) (sdl : sdl_input_t) (port_num : Nat) (id : Nat) :
    List snes_keybind → Bool → Globals → Option (Bool × Globals)
  | [], _, _ => none
  | b :: rest, pressed, g =>
    if b.id == -1 then some (pressed, g)
    else if b.id == c.SSNES_FAST_FORWARD_KEY then
      sdl_input_state_loop m c cfg d sdl port_num id rest pressed
        (set_fast_forward_button g (sdl_is_pressed m cfg d sdl port_num b))
    else if !pressed && b.id == toI32 id then
      sdl_input_state_loop m c cfg d sdl port_num id rest
        (sdl_is_pressed m cfg d sdl port_num b) g
    else sdl_input_state_loop m c cfg d sdl port_num id rest pressed g

/-- Embedding of `sdl_input_state`: the returned `int16_t` and the globals after
the call. `binds` maps 0 and 1 to the two binding tables. -/
def sdl_input_state (m : AxisCode) (c : InputConsts) (cfg : InputSettings) (d : DeviceState)
    (sdl : sdl_input_t) (g : Globals) (binds : Nat → List snes_keybind) (port : Bool)
    (device index id : Nat) : Option (Int × Globals) :=
  let _ := index
  if device != c.SNES_DEVICE_JOYPAD then some (0, g)
  else
    let port_i : Int := if port then 1 else 0
    let snes_keybinds := binds (if port_i == c.SNES_PORT_1 then 0 else 1)
    let port_num : Nat := if port_i == c.SNES_PORT_1 then 0 else 1
    (sdl_input_state_loop m c cfg d sdl port_num id snes_keybinds false g).map
      fun r => ((if r.1 then 1 else 0), r.2)

/-- Type of an SDL event, as far as `sdl_input_poll` distinguishes them. -/
inductive SDL_EventType where
  | SDL_QUIT
  | other (code : Nat)
deriving DecidableEq

/-- Embedding of `sdl_input_poll` on the pending event queue: the state after the
call and the events left in the queue. -/
def sdl_input_poll (sdl : sdl_input_t) : List SDL_EventType → sdl_input_t × List SDL_EventType
  | [] => (sdl, [])
  | e :: rest =>
    if e = SDL_EventType.SDL_QUIT then ({ sdl with quitting := true }, rest)
    else sdl_input_poll sdl rest

/-! ## Floating point

A finite `float` or `double` is the rational number it denotes. `rnd p` is IEEE-754
rounding to nearest, ties to even, to a significand of `p` bits, with an unbounded
exponent; it is the C rounding as long as no overflow or underflow occurs, which
is the case for every quantity computed from 32-bit integers below. Each
arithmetic operation of the C code is one exact rational operation followed by
one rounding (`float` operands: `f32`, an operand of type `double`: `f64`), that
is, expressions are evaluated in the precision of their C type
(`FLT_EVAL_METHOD` 0). The two zeros are not told apart. -/

/-- Floor of the base-2 logarithm of a natural number, by halving. -/
def log2Fuel : Nat → Nat → Nat
  | 0, _ => 0
  | fuel + 1, n => if 2 ≤ n then log2Fuel fuel (n / 2) + 1 else 0

/-- Floor of the base-2 logarithm of `|q|`, for `q ≠ 0`. -/
def ilog2 (q : ℚ) : ℤ :=
  let a : ℤ := (log2Fuel q.num.natAbs q.num.natAbs : ℤ) - (log2Fuel q.den q.den : ℤ)
  if (2 : ℚ) ^ a ≤ |q| then a else a - 1

/-- Nearest integer, ties to even. -/
def roundHalfEven (q : ℚ) : ℤ :=
  let f := ⌊q⌋
  let r := q - f
  if r < 1 / 2 then f else if r > 1 / 2 then f + 1 else if f % 2 = 0 then f else f + 1

/-- Rounding to `p` significant bits, to nearest, ties to even. -/
def rnd (p : ℕ) (q : ℚ) : ℚ :=
  if q = 0 then 0
  else
    let e : ℤ := ilog2 q - ((p : ℤ) - 1)
    (roundHalfEven (q / (2 : ℚ) ^ e) : ℚ) * (2 : ℚ) ^ e

/-- Rounding to `float` (24-bit significand). -/
def f32 (q : ℚ) : ℚ := rnd 24 q

/-- Rounding to `double` (53-bit significand). -/
def f64 (q : ℚ) : ℚ := rnd 53 q

/-- A `GLfloat` value: finite, infinite or not-a-number. -/
inductive GLfloat where
  | finite (q : ℚ)
  | infinite (negative : Bool)
  | nan
deriving DecidableEq

/-- The `float` division `a / b` of two finite values, `b` not a negative zero. -/
def f32_div (a b : ℚ) : GLfloat :=
  if b = 0 then (if a = 0 then GLfloat.nan else GLfloat.infinite (decide (a < 0)))
  else GLfloat.finite (f32 (a / b))

/-- Conversion of a finite floating value to `int`: truncation toward zero,
undefined (`none`) when the truncated value is not an `int`. -/
def f2i (q : ℚ) : Option Int :=
  let t : Int := if 0 ≤ q then ⌊q⌋ else ⌈q⌉
  if isInt32 t then some t else none

/-! ## Video backend: data model (`src/gfx/gl.c`) -/

/-- The configuration record `video_info_t` (declared in `driver.h`). -/
structure video_info_t where
  width : Int
  height : Int
  fullscreen : Bool
  vsync : Bool
  force_aspect : Bool
  smooth : Bool
  input_scale : Nat

/-- Texture filter constants. -/
inductive TexFilter where
  | GL_LINEAR
  | GL_NEAREST
deriving DecidableEq

/-- The backend state: `gl_t`. -/
structure gl_t where
  vsync : Bool
  texture : Nat
  tex_filter : TexFilter
  last_width : Nat
  last_height : Nat
  tex_w : Nat
  tex_h : Nat
  tex_coords : List GLfloat
deriving DecidableEq

/-- Arguments of the last `glViewport` call. -/
structure Viewport where
  x : Int
  y : Int
  width : Int
  height : Int
deriving DecidableEq

/-- The static variables of `gl.c` (`keep_aspect`, `gl_width`, `gl_height`) and the
context state the backend sets: the `SDL_GL_SWAP_CONTROL` attribute and the
viewport. -/
structure VideoGlobals where
  keep_aspect : Bool
  gl_width : Nat
  gl_height : Nat
  swap_control : Int
  viewport : Viewport
deriving DecidableEq

/-- Where the pixels of a texture upload come from: a zero-filled buffer or the
caller's frame. -/
inductive PixelSource where
  | zeros
  | frame
deriving DecidableEq

/-- The GL and SDL calls issued by `gl_frame`. -/
inductive GLCall where
  | glClear
  | glPixelStorei_UNPACK_ROW_LENGTH (n : Int)
  | glTexSubImage2D (xoffset yoffset : Int) (width height : Int) (pixels : PixelSource)
  | glDrawArrays
  | SDL_GL_SwapBuffers
deriving DecidableEq

/-- What the platform answers during `gl_init`. -/
structure VideoPlatform where
  SDL_Init : Int
  SDL_SetVideoMode_ok : Bool
  calloc_ok : Bool
  glGenTextures : Nat

/-! ## Video backend: operations -/

/-- The constant `SNES_ASPECT_RATIO`, the `double` quotient `4.0/3`. -/
def SNES_ASPECT_RATIO : ℚ := f64 (4 / 3)

/-- Embedding of `set_viewport`. `none` is undefined behaviour: a non-finite
aspect (height 0) or a conversion to `int` out of range. The recorded viewport is
the argument list of the `glViewport` call; the calls that reset the projection
and model-view matrices are left out. In the wider branch `device_aspect` is not
zero, so the `float` quotient `desired_aspect / device_aspect` is finite; in the
narrower branch the divisor is the constant. -/
def set_viewport (g : VideoGlobals) (width height : Int) : Option VideoGlobals :=
  let out_width : Nat := toU32 width
  let out_height : Nat := toU32 height
  if g.keep_aspect then
    let desired_aspect : ℚ := f32 SNES_ASPECT_RATIO
    match f32_div (f32 width) (f32 height) with
    | GLfloat.finite device_aspect =>
      match f2i (f32 (device_aspect * 1000)), f2i (f32 (desired_aspect * 1000)) with
      | some a, some b =>
        if a > b then
          let delta : ℚ :=
            f32 (f64 (f64 (f64 (f32 (desired_aspect / device_aspect) - 1) / 2) + 1 / 2))
          match f2i (f64 ((width : ℚ) * f64 (1 / 2 - delta))),
              f2i (f64 (f64 (2 * (width : ℚ)) * delta)) with
          | some vx, some vw =>
            some { g with
              viewport := { x := vx, y := 0, width := vw, height := height }
              gl_width := toU32 vw
              gl_height := out_height }
          | _, _ => none
        else if a < b then
          let delta : ℚ :=
            f32 (f64 (f64 (f64 (f32 (device_aspect / desired_aspect) - 1) / 2) + 1 / 2))
          match f2i (f64 ((height : ℚ) * f64 (1 / 2 - delta))),
              f2i (f64 (f64 (2 * (height : ℚ)) * delta)) with
          | some vy, some vh =>
            some { g with
              viewport := { x := 0, y := vy, width := width, height := vh }
              gl_width := out_width
              gl_height := toU32 vh }
          | _, _ => none
        else
          some { g with
            viewport := { x := 0, y := 0, width := width, height := height }
            gl_width := out_width
            gl_height := out_height }
      | _, _ => none
    | _ => none
  else
    some { g with
      viewport := { x := 0, y := 0, width := width, height := height }
      gl_width := out_width
      gl_height := out_height }

/-- The texture-coordinate quad written by `gl_frame` on a resolution change. -/
def frame_tex_coords (width height : Int) (tex_w tex_h : Nat) : List GLfloat :=
  [ GLfloat.finite 0, f32_div (f32 height) (f32 tex_h),
    GLfloat.finite 0, GLfloat.finite 0,
    f32_div (f32 width) (f32 tex_w), GLfloat.finite 0,
    f32_div (f32 width) (f32 tex_w), f32_div (f32 height) (f32 tex_h) ]

/-- Embedding of `gl_frame`: the state after the call and the texture, draw and
swap calls it issued, in order. The shader parameters and the frame counter of
`show_fps` are left out; they touch neither the state nor these calls. -/
def gl_frame (gl : gl_t) (width height pitch : Int) : gl_t × List GLCall :=
  if toU32 width != gl.last_width || toU32 height != gl.last_height then
    ({ gl with
        last_width := toU32 width
        last_height := toU32 height
        tex_coords := frame_tex_coords width height gl.tex_w gl.tex_h },
      [ GLCall.glClear,
        GLCall.glPixelStorei_UNPACK_ROW_LENGTH width,
        GLCall.glTexSubImage2D 0 0 gl.tex_w gl.tex_h PixelSource.zeros,
        GLCall.glPixelStorei_UNPACK_ROW_LENGTH (pitch >>> 1),
        GLCall.glTexSubImage2D 0 0 width height PixelSource.frame,
        GLCall.glDrawArrays,
        GLCall.SDL_GL_SwapBuffers ])
  else
    (gl,
      [ GLCall.glClear,
        GLCall.glPixelStorei_UNPACK_ROW_LENGTH (pitch >>> 1),
        GLCall.glTexSubImage2D 0 0 width height PixelSource.frame,
        GLCall.glDrawArrays,
        GLCall.SDL_GL_SwapBuffers ])

/-- Embedding of `gl_set_nonblock_state`. -/
def gl_set_nonblock_state (gl : gl_t) (state : Bool) (g : VideoGlobals) : VideoGlobals :=
  if gl.vsync then { g with swap_control := if state then 0 else 1 } else g

/-- The static table `tex_coords` copied into a fresh backend state. -/
def tex_coords : List GLfloat :=
  [ GLfloat.finite 0, GLfloat.finite 1,
    GLfloat.finite 0, GLfloat.finite 0,
    GLfloat.finite 1, GLfloat.finite 0,
    GLfloat.finite 1, GLfloat.finite 1 ]

/-- Embedding of `gl_init`: `none` is the `NULL` result (or undefined behaviour
inside `set_viewport`). The backend state is zero-filled by `calloc`, then the
fields the function assigns are set. -/
def gl_init (p : VideoPlatform) (video : video_info_t) : Option (gl_t × VideoGlobals) :=
  if p.SDL_Init < 0 then none
  else
    let g0 : VideoGlobals :=
      { keep_aspect := true
        gl_width := 0
        gl_height := 0
        swap_control := if video.vsync then 1 else 0
        viewport := { x := 0, y := 0, width := 0, height := 0 } }
    if !p.SDL_SetVideoMode_ok then none
    else if !p.calloc_ok then none
    else
      let g1 : VideoGlobals := { g0 with keep_aspect := video.force_aspect }
      match set_viewport g1 video.width video.height with
      | none => none
      | some g2 =>
        let tex_w : Nat := (256 * video.input_scale) % 4294967296
        let tex_h : Nat := (256 * video.input_scale) % 4294967296
        some
          ({ vsync := false
             texture := p.glGenTextures
             tex_filter := if video.smooth then TexFilter.GL_LINEAR else TexFilter.GL_NEAREST
             last_width := tex_w
             last_height := tex_h
             tex_w := tex_w
             tex_h := tex_h
             tex_coords := tex_coords },
            g2)

/-! ## Readings of the specification and sample inputs -/

/-- The entries of a binding table in front of its terminator (`id = -1`). -/
def table_entries (t : List snes_keybind) : List snes_keybind :=
  t.takeWhile fun b => b.id != -1

/-- A binding table that has a terminator entry. -/
def terminated (t : List snes_keybind) : Prop := ∃ b ∈ t, b.id = -1

/-- The table and the joystick slot that `sdl_input_state` selects for a port. -/
def port_index (c : InputConsts) (port : Bool) : Nat :=
  if ((if port then 1 else 0 : Int) == c.SNES_PORT_1) then 0 else 1

/-- The spec's source (a): `key_pressed` on the entry's key code. -/
def spec_key_source (cfg : InputSettings) (d : DeviceState) (sdl : sdl_input_t)
    (key : snes_keybind) : Bool :=
  sdl_key_pressed cfg d sdl key.key

/-- The spec's source (b): the port has a device, the entry's button index is in
range for it and the button is held. -/
def spec_button_source (d : DeviceState) (sdl : sdl_input_t) (port_num : Nat)
    (key : snes_keybind) : Bool :=
  decide (port_num < sdl.num_joysticks)
    && decide (toU32 key.joykey < sdl.num_buttons port_num)
    && d.JoystickGetButton (sdl.joysticks port_num) key.joykey != 0

/-- The spec's source (c): the port has a device, the entry's axis is not
`AXIS_NONE`, and the deflection of the bound axis is beyond the threshold in the
bound direction: below `-threshold` on the axis of a negative-direction code,
above `+threshold` on the axis of a positive-direction code. -/
def spec_axis_source (m : AxisCode) (cfg : InputSettings) (d : DeviceState) (sdl : sdl_input_t)
    (port_num : Nat) (key : snes_keybind) : Bool :=
  decide (port_num < sdl.num_joysticks) && key.joyaxis != m.AXIS_NONE
    && ((decide (m.AXIS_NEG_GET key.joyaxis < sdl.num_axes port_num)
          && decide (((d.JoystickGetAxis (sdl.joysticks port_num)
                (m.AXIS_NEG_GET key.joyaxis) : Int) : ℚ) / 0x8000 < -cfg.axis_threshold))
      || (decide (m.AXIS_POS_GET key.joyaxis < sdl.num_axes port_num)
          && decide (((d.JoystickGetAxis (sdl.joysticks port_num)
                (m.AXIS_POS_GET key.joyaxis) : Int) : ℚ) / 0x8000 > cfg.axis_threshold)))

/-- The spec's reading of the value of `input_state`: the resolution of the first
entry, in table order, whose id equals the requested id; false without one. -/
def spec_first_match (m : AxisCode) (cfg : InputSettings) (d : DeviceState) (sdl : sdl_input_t)
    (port_num : Nat) (id : Nat) (t : List snes_keybind) : Bool :=
  match (table_entries t).find? fun b => b.id == toI32 id with
  | some b => sdl_is_pressed m cfg d sdl port_num b
  | none => false

/-- Sample constants: joypad device 1, port one 0, fast-forward id `0x666`. -/
def sampleConsts : InputConsts :=
  { SNES_DEVICE_JOYPAD := 1, SNES_PORT_1 := 0, SSNES_FAST_FORWARD_KEY := 0x666 }

/-- Sample settings: exit key 27, axis threshold one half. -/
def sampleSettings : InputSettings := { exit_emulator_key := 27, axis_threshold := 1 / 2 }

/-- Sample backend state: one joystick (device 0) with 2 axes and 4 buttons. -/
def samplePad : sdl_input_t :=
  { quitting := false
    joysticks := fun i => if i = 0 then some 0 else none
    num_axes := fun i => if i = 0 then 2 else 0
    num_buttons := fun i => if i = 0 then 4 else 0
    num_joysticks := 1 }

/-- Sample device state: key `k` is the only key down, no button is held, axis
`a` of every joystick reads `v` and every other axis index reads 0. -/
def sampleDevice (k : Int) (a : Nat) (v : Int) : DeviceState :=
  { num_keys := 323
    keymap := fun i => if i = k then 1 else 0
    JoystickGetButton := fun _ _ => 0
    JoystickGetAxis := fun _ i => if i = a then v else 0 }

/-- Sample globals: toggle off, no call logged. -/
def sampleGlobals : Globals := { fast_forward := false, ff_calls := [] }

/-- Sample platform for `sdl_input_init`: three joysticks, each opening. -/
def threeJoysticks : InitPlatform :=
  { calloc_ok := true
    SDL_Init := 0
    SDL_NumJoysticks := 3
    SDL_JoystickOpen := fun i => some i
    SDL_JoystickNumAxes := fun _ => 2
    SDL_JoystickNumButtons := fun _ => 4 }

/-- One operation on an input backend handle. -/
inductive InputOp where
  | poll (events : List SDL_EventType)
  | input_state (d : DeviceState) (binds : Nat → List snes_keybind) (port : Bool)
      (device index id : Nat)
  | key_pressed (d : DeviceState) (key : Int)

/-- The effect of one operation on the backend state and the globals. A query
whose behaviour is undefined leaves the globals as they are. -/
def InputOp.run (m : AxisCode) (c : InputConsts) (cfg : InputSettings)
    (s : sdl_input_t × Globals) : InputOp → sdl_input_t × Globals
  | InputOp.poll events => ((sdl_input_poll s.1 events).1, s.2)
  | InputOp.input_state d binds port device index id =>
    match sdl_input_state m c cfg d s.1 s.2 binds port device index id with
    | some r => (s.1, r.2)
    | none => s
  | InputOp.key_pressed _ _ => s

/-- The effect of a sequence of operations. -/
def run_ops (m : AxisCode) (c : InputConsts) (cfg : InputSettings)
    (s : sdl_input_t × Globals) (ops : List InputOp) : sdl_input_t × Globals :=
  ops.foldl (InputOp.run m c cfg) s

/-- Sample table: two entries with id 5 (keys 10 and 20), then the terminator. -/
def twoMatches : List snes_keybind :=
  [ { id := 5, key := 10, joykey := 9, joyaxis := 0xFFFFFFFF },
    { id := 5, key := 20, joykey := 9, joyaxis := 0xFFFFFFFF },
    { id := -1, key := 0, joykey := 0, joyaxis := 0xFFFFFFFF } ]

/-- Sample table: a regular entry with id 5 (key 10), a fast-forward entry (key
20), then the terminator. -/
def regularThenFastForward : List snes_keybind :=
  [ { id := 5, key := 10, joykey := 9, joyaxis := 0xFFFFFFFF },
    { id := 0x666, key := 20, joykey := 9, joyaxis := 0xFFFFFFFF },
    { id := -1, key := 0, joykey := 0, joyaxis := 0xFFFFFFFF } ]

/-- The left side of the comparison in `set_viewport`:
`(int)(device_aspect*1000)`, the display aspect at 3 decimals as a scaled
integer. -/
def aspect_1000 (width height : Int) : Option Int :=
  match f32_div (f32 width) (f32 height) with
  | GLfloat.finite device_aspect => f2i (f32 (device_aspect * 1000))
  | _ => none

/-- The right side of the comparison in `set_viewport`:
`(int)(desired_aspect*1000)`, the scaled integer of 4/3. -/
def desired_1000 : Option Int := f2i (f32 (f32 SNES_ASPECT_RATIO * 1000))

/-- A call that writes a zero-filled buffer into the texture. -/
def is_texture_clear : GLCall → Bool
  | GLCall.glTexSubImage2D _ _ _ _ PixelSource.zeros => true
  | _ => false

/-- Sample platform for `gl_init`: every step succeeds, the texture name is 1. -/
def sampleVideoPlatform : VideoPlatform :=
  { SDL_Init := 0, SDL_SetVideoMode_ok := true, calloc_ok := true, glGenTextures := 1 }

/-- Sample configuration: a 320x240 window, vsync and aspect lock on or off, input
scale 2 (a 512x512 texture). -/
def sampleVideo (vsync force_aspect : Bool) : video_info_t :=
  { width := 320, height := 240, fullscreen := false, vsync := vsync,
    force_aspect := force_aspect, smooth := false, input_scale := 2 }

/-- Sample video globals: aspect lock on, nothing set yet. -/
def sampleVideoGlobals : VideoGlobals :=
  { keep_aspect := true, gl_width := 0, gl_height := 0, swap_control := 0,
    viewport := { x := 0, y := 0, width := 0, height := 0 } }

/-- The backend state that `gl_init` returns for `sampleVideo`. -/
def sampleGl : gl_t :=
  { vsync := false, texture := 1, tex_filter := TexFilter.GL_NEAREST,
    last_width := 512, last_height := 512, tex_w := 512, tex_h := 512,
    tex_coords := tex_coords }

/-- The axis test of `sdl_is_pressed` (the block guarded by
`key->joyaxis != AXIS_NONE`), on its own. Both directions read the axis index
`AXIS_NEG_GET`. -/
def axis_pressed (m : AxisCode) (cfg : InputSettings) (d : DeviceState) (sdl : sdl_input_t)
    (port_num : Nat) (key : snes_keybind) : Bool :=
  key.joyaxis != m.AXIS_NONE
    && ((decide (m.AXIS_NEG_GET key.joyaxis < sdl.num_axes port_num)
          && decide (((d.JoystickGetAxis (sdl.joysticks port_num)
                (m.AXIS_NEG_GET key.joyaxis) : Int) : ℚ) / 0x8000 < -cfg.axis_threshold))
      || (decide (m.AXIS_POS_GET key.joyaxis < sdl.num_axes port_num)
          && decide (((d.JoystickGetAxis (sdl.joysticks port_num)
                (m.AXIS_NEG_GET key.joyaxis) : Int) : ℚ) / 0x8000 > cfg.axis_threshold)))

/-! # Theorems -/

/-! ## Input backend: structure of `sdl_is_pressed` and `sdl_input_init` -/

/-- `sdl_is_pressed` is the disjunction of its key source, its button source and
its axis test; the last two count only when the port has a joystick. -/
theorem sdl_is_pressed_eq_or (m : AxisCode) (cfg : InputSettings) (d : DeviceState)
    (sdl : sdl_input_t) (port_num : Nat) (key : snes_keybind) :
    sdl_is_pressed m cfg d sdl port_num key =
      (spec_key_source cfg d sdl key || spec_button_source d sdl port_num key
        || (decide (port_num < sdl.num_joysticks) && axis_pressed m cfg d sdl port_num key)) := by
  unfold sdl_is_pressed spec_key_source spec_button_source axis_pressed
  by_cases h1 : sdl_key_pressed cfg d sdl key.key = true
  · simp [h1]
  · by_cases h2 : port_num ≥ sdl.num_joysticks
    · have h2' : ¬ port_num < sdl.num_joysticks := not_lt.mpr h2
      simp [h1, h2, h2']
    · have h2' : port_num < sdl.num_joysticks := not_le.mp h2
      simp only [h1, h2, h2', Bool.false_eq_true, if_false, decide_True, Bool.true_and,
        Bool.false_or]
      by_cases h3 : (decide (toU32 key.joykey < sdl.num_buttons port_num)
          && d.JoystickGetButton (sdl.joysticks port_num) key.joykey != 0) = true
      · simp [h3]
      · have h3' : (decide (toU32 key.joykey < sdl.num_buttons port_num)
            && d.JoystickGetButton (sdl.joysticks port_num) key.joykey != 0) = false := by
          simpa using h3
        rw [if_neg h3, h3', Bool.false_or]
        by_cases h4 : (key.joyaxis != m.AXIS_NONE) = true
        · rw [if_pos h4, h4, Bool.true_and]
          by_cases h5 : (decide (m.AXIS_NEG_GET key.joyaxis < sdl.num_axes port_num)
              && decide (((d.JoystickGetAxis (sdl.joysticks port_num)
                (m.AXIS_NEG_GET key.joyaxis) : Int) : ℚ) / 0x8000 < -cfg.axis_threshold)) = true
          · simp only [h5, if_true, Bool.true_or]
          · have h5' : (decide (m.AXIS_NEG_GET key.joyaxis < sdl.num_axes port_num)
              && decide (((d.JoystickGetAxis (sdl.joysticks port_num)
                (m.AXIS_NEG_GET key.joyaxis) : Int) : ℚ) / 0x8000 < -cfg.axis_threshold))
                = false := by simpa using h5
            simp only [h5', Bool.false_eq_true, if_false, Bool.false_or]
            split_ifs with h6
            · exact h6.symm
            · simpa using h6
        · have h4' : (key.joyaxis != m.AXIS_NONE) = false := by simpa using h4
          rw [if_neg h4, h4', Bool.false_and]

/-- The negative direction behaves as the spec says. With key and button sources
inactive, a joystick on the port, and an axis code whose negative index is an
axis of the device and whose positive index is not, `sdl_is_pressed` is true
exactly when the scaled deflection of that axis is strictly below minus the
threshold (so false at minus the threshold itself). -/
theorem sdl_is_pressed_negative_axis (m : AxisCode) (cfg : InputSettings) (d : DeviceState)
    (sdl : sdl_input_t) (port_num : Nat) (key : snes_keybind)
    (hkey : spec_key_source cfg d sdl key = false)
    (hbtn : spec_button_source d sdl port_num key = false)
    (hport : port_num < sdl.num_joysticks)
    (hax : key.joyaxis ≠ m.AXIS_NONE)
    (hneg : m.AXIS_NEG_GET key.joyaxis < sdl.num_axes port_num)
    (hpos : ¬ m.AXIS_POS_GET key.joyaxis < sdl.num_axes port_num) :
    sdl_is_pressed m cfg d sdl port_num key =
      decide (((d.JoystickGetAxis (sdl.joysticks port_num)
        (m.AXIS_NEG_GET key.joyaxis) : Int) : ℚ) / 0x8000 < -cfg.axis_threshold) := by
  rw [sdl_is_pressed_eq_or, hkey, hbtn]
  unfold axis_pressed
  simp [hport, hax, hneg, hpos]

/-- The count that `sdl_input_init` tracks is the reported number of joysticks,
with no upper limit applied. -/
theorem sdl_input_init_loop_num_joysticks (p : InitPlatform) :
    ∀ (n i : Nat) (sdl sdl2 : sdl_input_t), sdl_input_init_loop p n i sdl = some sdl2 →
      sdl2.num_joysticks = sdl.num_joysticks
  | 0, i, sdl, sdl2, h => by
    simp only [sdl_input_init_loop, Option.some.injEq] at h
    rw [← h]
  | n + 1, i, sdl, sdl2, h => by
    unfold sdl_input_init_loop at h
    split at h
    · exact absurd h (by simp)
    · exact (sdl_input_init_loop_num_joysticks p n (i + 1) _ sdl2 h).trans rfl

/-- A successful `sdl_input_init` tracks exactly the number of joysticks that the
platform reports. -/
theorem sdl_input_init_num_joysticks (p : InitPlatform) (sdl : sdl_input_t)
    (h : sdl_input_init p = some sdl) : sdl.num_joysticks = toU32 p.SDL_NumJoysticks := by
  unfold sdl_input_init at h
  split_ifs at h
  exact sdl_input_init_loop_num_joysticks p _ 0 _ sdl h

/-! ## Input backend: theorems -/

/-- C1, evaluated at a failing input. Port 0 has a joystick with 2 axes; the
binding is the positive direction of axis 1, its key is up and its button is not
held; axis 1 is fully deflected in the positive direction (32767, scaled above
the threshold 1/2). Source (c) of the spec is active, yet `sdl_is_pressed`
returns false: the positive-direction test reads the axis index
`AXIS_NEG_GET`, not `AXIS_POS_GET`. -/
theorem sdl_is_pressed_misses_positive_axis :
    sdl_is_pressed driverAxis sampleSettings (sampleDevice 0 1 32767) samplePad 0
        { id := 4, key := 97, joykey := 9, joyaxis := AXIS_POS 1 } = false
      ∧ spec_key_source sampleSettings (sampleDevice 0 1 32767) samplePad
          { id := 4, key := 97, joykey := 9, joyaxis := AXIS_POS 1 } = false
      ∧ spec_button_source (sampleDevice 0 1 32767) samplePad 0
          { id := 4, key := 97, joykey := 9, joyaxis := AXIS_POS 1 } = false
      ∧ spec_axis_source driverAxis sampleSettings (sampleDevice 0 1 32767) samplePad 0
          { id := 4, key := 97, joykey := 9, joyaxis := AXIS_POS 1 } = true := by
  decide!

/-- C2, evaluated at a failing input. Port 0 has a joystick with 2 axes, key and
button sources are inactive, the threshold is 1/2. For the positive direction of
axis 0 (index in range) a deflection of 20000, scaled strictly above the
threshold, gives false; the negative direction of the same axis behaves as
claimed: true at -20000, false at -16384 (scaled deflection equal to minus the
threshold). -/
theorem sdl_is_pressed_positive_axis_beyond_threshold :
    sdl_is_pressed driverAxis sampleSettings (sampleDevice 0 0 20000) samplePad 0
        { id := 4, key := 97, joykey := 9, joyaxis := AXIS_POS 0 } = false
      ∧ driverAxis.AXIS_POS_GET (AXIS_POS 0) < samplePad.num_axes 0
      ∧ ((20000 : Int) : ℚ) / 0x8000 > sampleSettings.axis_threshold
      ∧ sdl_is_pressed driverAxis sampleSettings (sampleDevice 0 0 (-20000)) samplePad 0
        { id := 4, key := 97, joykey := 9, joyaxis := AXIS_NEG 0 } = true
      ∧ sdl_is_pressed driverAxis sampleSettings (sampleDevice 0 0 (-16384)) samplePad 0
        { id := 4, key := 97, joykey := 9, joyaxis := AXIS_NEG 0 } = false := by
  decide!

/-- The globals after a run of `set_fast_forward_button` calls. -/
theorem foldl_set_fast_forward_button (l : List Bool) (g : Globals) :
    (l.foldl set_fast_forward_button g).ff_calls = g.ff_calls ++ l
      ∧ (l.foldl set_fast_forward_button g).fast_forward = l.getLast?.getD g.fast_forward := by
  induction l using List.reverseRecOn with
  | nil => simp
  | append_singleton xs x ih =>
    simp [List.foldl_append, set_fast_forward_button, ih.1]

/-- What the scan loop of `sdl_input_state` computes on a terminated table: the
latch is or-ed with every matching regular entry in front of the terminator, and
every fast-forward entry in front of the terminator is resolved and passed to
`set_fast_forward_button`, in table order. -/
theorem sdl_input_state_loop_eq (m : AxisCode) (c : InputConsts) (cfg : InputSettings)
    (d : DeviceState) (sdl : sdl_input_t) (port_num id : Nat) (t : List snes_keybind)
    (ht : terminated t) (pressed : Bool) (g : Globals) :
    sdl_input_state_loop m c cfg d sdl port_num id t pressed g =
      some
        (pressed || (table_entries t).any (fun b =>
            b.id != c.SSNES_FAST_FORWARD_KEY && b.id == toI32 id
              && sdl_is_pressed m cfg d sdl port_num b),
          (((table_entries t).filter fun b => b.id == c.SSNES_FAST_FORWARD_KEY).map
              (sdl_is_pressed m cfg d sdl port_num)).foldl set_fast_forward_button g) := by
  induction t generalizing pressed g with
  | nil => obtain ⟨b, hb, _⟩ := ht; simp at hb
  | cons b rest ih =>
    by_cases hb : b.id = -1
    · simp [sdl_input_state_loop, table_entries, hb]
    · have hrest : terminated rest := by
        obtain ⟨x, hx, hx1⟩ := ht
        rcases List.mem_cons.mp hx with h | h
        · exact absurd (h ▸ hx1) hb
        · exact ⟨x, h, hx1⟩
      have hte : table_entries (b :: rest) = b :: table_entries rest := by
        simp [table_entries, List.takeWhile_cons, hb]
      have e1 : (b.id == -1) = false := by simpa using hb
      rw [hte, sdl_input_state_loop, e1]
      simp only [Bool.false_eq_true, if_false]
      by_cases hff : b.id = c.SSNES_FAST_FORWARD_KEY
      · have e2 : (b.id == c.SSNES_FAST_FORWARD_KEY) = true := by simpa using hff
        have e3 : (b.id != c.SSNES_FAST_FORWARD_KEY) = false := by simp [bne, e2]
        rw [e2]
        simp only [if_true]
        rw [ih hrest]
        simp only [List.any_cons, List.filter_cons, e2, e3, if_true, List.map_cons,
          List.foldl_cons, Bool.false_and, Bool.false_or]
      · have e2 : (b.id == c.SSNES_FAST_FORWARD_KEY) = false := by simpa using hff
        have e3 : (b.id != c.SSNES_FAST_FORWARD_KEY) = true := by simp [bne, e2]
        rw [e2]
        simp only [Bool.false_eq_true, if_false]
        by_cases hp : (!pressed && b.id == toI32 id) = true
        · rw [if_pos hp, ih hrest]
          have hp1 : pressed = false := by
            cases pressed <;> simp_all
          have hp2 : (b.id == toI32 id) = true := by
            cases pressed <;> simp_all
          simp only [List.any_cons, List.filter_cons, e2, e3, hp1, hp2, Bool.true_and,
            Bool.false_or, Bool.false_eq_true, if_false]
        · rw [if_neg hp, ih hrest]
          simp only [List.any_cons, List.filter_cons, e2, e3, Bool.true_and,
            Bool.false_eq_true, if_false]
          cases hpr : pressed
          · have hp2 : (b.id == toI32 id) = false := by
              cases hx : (b.id == toI32 id)
              · rfl
              · exact absurd (by simp [hpr, hx]) hp
            simp [hp2]
          · simp

/-- C3, counterexample. Both entries of `twoMatches` have the requested id 5; the
first resolves false (key 10 is up), the second resolves true (key 20 is down).
`sdl_input_state` returns 1, while the resolution of the first matching entry is
false. -/
theorem sdl_input_state_not_first_match :
    sdl_input_state driverAxis sampleConsts sampleSettings (sampleDevice 20 0 0) samplePad
        sampleGlobals (fun _ => twoMatches) false 1 0 5 = some (1, sampleGlobals)
      ∧ spec_first_match driverAxis sampleSettings (sampleDevice 20 0 0) samplePad 0 5
          twoMatches = false := by
  decide!

/-- The result of `sdl_input_state` for the joypad device kind on a terminated
table. -/
theorem sdl_input_state_joypad (m : AxisCode) (c : InputConsts) (cfg : InputSettings)
    (d : DeviceState) (sdl : sdl_input_t) (g : Globals) (binds : Nat → List snes_keybind)
    (port : Bool) (index id : Nat) (ht : terminated (binds (port_index c port))) :
    sdl_input_state m c cfg d sdl g binds port c.SNES_DEVICE_JOYPAD index id =
      some
        ((if (table_entries (binds (port_index c port))).any (fun b =>
              b.id != c.SSNES_FAST_FORWARD_KEY && b.id == toI32 id
                && sdl_is_pressed m cfg d sdl (port_index c port) b)
          then 1 else 0),
          (((table_entries (binds (port_index c port))).filter fun b =>
            b.id == c.SSNES_FAST_FORWARD_KEY).map
              (sdl_is_pressed m cfg d sdl (port_index c port))).foldl
            set_fast_forward_button g) := by
  have h := sdl_input_state_loop_eq m c cfg d sdl (port_index c port) id
    (binds (port_index c port)) ht false g
  unfold sdl_input_state
  simp only [bne_self_eq_false, Bool.false_eq_true, if_false]
  unfold port_index at h ⊢
  rw [h]
  simp only [Option.map_some', Bool.false_or]

/-- C3, amended. For the joypad device kind and a terminated table,
`sdl_input_state` returns 1 exactly when some entry in front of the terminator
whose id equals the requested id, and is not the fast-forward id, resolves true,
and 0 otherwise (in particular when no entry matches). -/
theorem sdl_input_state_value (m : AxisCode) (c : InputConsts) (cfg : InputSettings)
    (d : DeviceState) (sdl : sdl_input_t) (g : Globals) (binds : Nat → List snes_keybind)
    (port : Bool) (index id : Nat) (ht : terminated (binds (port_index c port))) :
    ∃ g', sdl_input_state m c cfg d sdl g binds port c.SNES_DEVICE_JOYPAD index id =
      some
        ((if (table_entries (binds (port_index c port))).any (fun b =>
              b.id != c.SSNES_FAST_FORWARD_KEY && b.id == toI32 id
                && sdl_is_pressed m cfg d sdl (port_index c port) b)
          then 1 else 0), g') := by
  exact ⟨_, sdl_input_state_joypad m c cfg d sdl g binds port index id ht⟩

/-- C3, amended, at a sample input: `twoMatches` asked for id 5 with key 20 down. -/
theorem sdl_input_state_value_witness :
    terminated ((fun _ => twoMatches) (port_index sampleConsts false))
      ∧ ∃ g', sdl_input_state driverAxis sampleConsts sampleSettings (sampleDevice 20 0 0)
          samplePad sampleGlobals (fun _ => twoMatches) false
          sampleConsts.SNES_DEVICE_JOYPAD 0 5 =
        some
          ((if (table_entries ((fun _ => twoMatches) (port_index sampleConsts false))).any
              (fun b =>
                b.id != sampleConsts.SSNES_FAST_FORWARD_KEY && b.id == toI32 5
                  && sdl_is_pressed driverAxis sampleSettings (sampleDevice 20 0 0) samplePad
                      (port_index sampleConsts false) b)
            then 1 else 0), g') :=
  ⟨⟨⟨-1, 0, 0, 0xFFFFFFFF⟩, by simp [twoMatches], rfl⟩,
    sdl_input_state_value driverAxis sampleConsts sampleSettings (sampleDevice 20 0 0) samplePad
      sampleGlobals (fun _ => twoMatches) false 0 5
      ⟨⟨-1, 0, 0, 0xFFFFFFFF⟩, by simp [twoMatches], rfl⟩⟩

/-- C4. For the joypad device kind and a terminated table, whatever id is
requested, `sdl_input_state` resolves every fast-forward entry in front of the
terminator and passes the result to `set_fast_forward_button`, in table order:
the calls logged are exactly these resolutions, and the toggle ends as the
resolution of the last fast-forward entry (unchanged if the table has none). -/
theorem sdl_input_state_fast_forward (m : AxisCode) (c : InputConsts) (cfg : InputSettings)
    (d : DeviceState) (sdl : sdl_input_t) (g : Globals) (binds : Nat → List snes_keybind)
    (port : Bool) (index id : Nat) (ht : terminated (binds (port_index c port))) :
    ∃ r, sdl_input_state m c cfg d sdl g binds port c.SNES_DEVICE_JOYPAD index id = some r
      ∧ r.2.ff_calls = g.ff_calls ++
          ((table_entries (binds (port_index c port))).filter fun b =>
            b.id == c.SSNES_FAST_FORWARD_KEY).map
              (sdl_is_pressed m cfg d sdl (port_index c port))
      ∧ r.2.fast_forward =
          (((table_entries (binds (port_index c port))).filter fun b =>
            b.id == c.SSNES_FAST_FORWARD_KEY).map
              (sdl_is_pressed m cfg d sdl (port_index c port))).getLast?.getD g.fast_forward := by
  have hf := foldl_set_fast_forward_button
    (((table_entries (binds (port_index c port))).filter fun b =>
      b.id == c.SSNES_FAST_FORWARD_KEY).map (sdl_is_pressed m cfg d sdl (port_index c port))) g
  exact ⟨_, sdl_input_state_joypad m c cfg d sdl g binds port index id ht, hf.1, hf.2⟩

/-- C4 at the spec's end-to-end input: one regular entry (id 5) and one
fast-forward entry whose key is down; asking for id 5 leaves the toggle equal to
the fast-forward entry's resolution, true. -/
theorem sdl_input_state_fast_forward_witness :
    terminated ((fun _ => regularThenFastForward) (port_index sampleConsts false))
      ∧ (∃ r, sdl_input_state driverAxis sampleConsts sampleSettings (sampleDevice 20 0 0)
            samplePad sampleGlobals (fun _ => regularThenFastForward) false
            sampleConsts.SNES_DEVICE_JOYPAD 0 5 = some r
          ∧ r.2.ff_calls = sampleGlobals.ff_calls ++
              ((table_entries ((fun _ => regularThenFastForward)
                  (port_index sampleConsts false))).filter fun b =>
                b.id == sampleConsts.SSNES_FAST_FORWARD_KEY).map
                  (sdl_is_pressed driverAxis sampleSettings (sampleDevice 20 0 0) samplePad
                    (port_index sampleConsts false))
          ∧ r.2.fast_forward =
              (((table_entries ((fun _ => regularThenFastForward)
                  (port_index sampleConsts false))).filter fun b =>
                b.id == sampleConsts.SSNES_FAST_FORWARD_KEY).map
                  (sdl_is_pressed driverAxis sampleSettings (sampleDevice 20 0 0) samplePad
                    (port_index sampleConsts false))).getLast?.getD
                sampleGlobals.fast_forward)
      ∧ sdl_input_state driverAxis sampleConsts sampleSettings (sampleDevice 20 0 0)
            samplePad sampleGlobals (fun _ => regularThenFastForward) false 1 0 5 =
          some (0, { fast_forward := true, ff_calls := [true] }) :=
  ⟨⟨⟨-1, 0, 0, 0xFFFFFFFF⟩, by simp [regularThenFastForward], rfl⟩,
    sdl_input_state_fast_forward driverAxis sampleConsts sampleSettings (sampleDevice 20 0 0)
      samplePad sampleGlobals (fun _ => regularThenFastForward) false 0 5
      ⟨⟨-1, 0, 0, 0xFFFFFFFF⟩, by simp [regularThenFastForward], rfl⟩,
    by decide!⟩

/-- A poll that meets a quit event sets the quit flag. -/
theorem sdl_input_poll_quit (sdl : sdl_input_t) (events : List SDL_EventType)
    (hq : SDL_EventType.SDL_QUIT ∈ events) : (sdl_input_poll sdl events).1.quitting = true := by
  induction events with
  | nil => simp at hq
  | cons e rest ih =>
    unfold sdl_input_poll
    by_cases he : e = SDL_EventType.SDL_QUIT
    · simp [he]
    · simp only [he, if_false]
      rcases List.mem_cons.mp hq with h | h
      · exact absurd h.symm he
      · exact ih h

/-- A poll never clears the quit flag. -/
theorem sdl_input_poll_keeps_quit (sdl : sdl_input_t) (events : List SDL_EventType)
    (hq : sdl.quitting = true) : (sdl_input_poll sdl events).1.quitting = true := by
  induction events with
  | nil => simpa [sdl_input_poll] using hq
  | cons e rest ih =>
    unfold sdl_input_poll
    by_cases he : e = SDL_EventType.SDL_QUIT
    · simp [he]
    · simpa only [he, if_false] using ih

/-- No operation clears the quit flag. -/
theorem InputOp_run_keeps_quit (m : AxisCode) (c : InputConsts) (cfg : InputSettings)
    (s : sdl_input_t × Globals) (op : InputOp) (hq : s.1.quitting = true) :
    (InputOp.run m c cfg s op).1.quitting = true := by
  cases op with
  | poll events => exact sdl_input_poll_keeps_quit s.1 events hq
  | input_state d binds port device index id =>
    simp only [InputOp.run]
    split <;> exact hq
  | key_pressed d key => exact hq

/-- No sequence of operations clears the quit flag. -/
theorem run_ops_keeps_quit (m : AxisCode) (c : InputConsts) (cfg : InputSettings)
    (ops : List InputOp) (s : sdl_input_t × Globals) (hq : s.1.quitting = true) :
    (run_ops m c cfg s ops).1.quitting = true := by
  induction ops generalizing s with
  | nil => exact hq
  | cons op rest ih =>
    unfold run_ops
    rw [List.foldl_cons]
    exact ih _ (InputOp_run_keeps_quit m c cfg s op hq)

/-- C5. Once a poll has met a quit event, after any further sequence of polls and
queries the quit flag is still set, and `sdl_key_pressed` on the configured exit
key returns true for every keyboard state. -/
theorem quit_flag_sticky (m : AxisCode) (c : InputConsts) (cfg : InputSettings)
    (sdl : sdl_input_t) (g : Globals) (events : List SDL_EventType)
    (hq : SDL_EventType.SDL_QUIT ∈ events) (ops : List InputOp) (d : DeviceState) :
    (run_ops m c cfg ((sdl_input_poll sdl events).1, g) ops).1.quitting = true
      ∧ sdl_key_pressed cfg d (run_ops m c cfg ((sdl_input_poll sdl events).1, g) ops).1
          cfg.exit_emulator_key = true := by
  have h := run_ops_keeps_quit m c cfg ops ((sdl_input_poll sdl events).1, g)
    (sdl_input_poll_quit sdl events hq)
  refine ⟨h, ?_⟩
  unfold sdl_key_pressed
  simp [h]

/-- C5 at a sample run: a quit event arrives behind another event; afterwards an
empty poll, a joypad query and a key query are made; with no key held the exit
key still reads as pressed. -/
theorem quit_flag_sticky_witness :
    SDL_EventType.SDL_QUIT ∈ [SDL_EventType.other 3, SDL_EventType.SDL_QUIT]
      ∧ (run_ops driverAxis sampleConsts sampleSettings
            ((sdl_input_poll samplePad [SDL_EventType.other 3, SDL_EventType.SDL_QUIT]).1,
              sampleGlobals)
            [InputOp.poll [], InputOp.input_state (sampleDevice 0 0 0)
              (fun _ => regularThenFastForward) false 1 0 5,
              InputOp.key_pressed (sampleDevice 0 0 0) 27]).1.quitting = true
      ∧ sdl_key_pressed sampleSettings (sampleDevice 0 0 0)
          (run_ops driverAxis sampleConsts sampleSettings
            ((sdl_input_poll samplePad [SDL_EventType.other 3, SDL_EventType.SDL_QUIT]).1,
              sampleGlobals)
            [InputOp.poll [], InputOp.input_state (sampleDevice 0 0 0)
              (fun _ => regularThenFastForward) false 1 0 5,
              InputOp.key_pressed (sampleDevice 0 0 0) 27]).1
          sampleSettings.exit_emulator_key = true :=
  ⟨by decide,
    quit_flag_sticky driverAxis sampleConsts sampleSettings samplePad sampleGlobals
      [SDL_EventType.other 3, SDL_EventType.SDL_QUIT] (by decide)
      [InputOp.poll [], InputOp.input_state (sampleDevice 0 0 0)
        (fun _ => regularThenFastForward) false 1 0 5,
        InputOp.key_pressed (sampleDevice 0 0 0) 27] (sampleDevice 0 0 0)⟩

/-- C10, evaluated at a failing input. The platform reports three joysticks and
each opens: `sdl_input_init` succeeds, tracks three joysticks, and has opened
device index 2 and stored its handle, axis count and button count in slot 2, past
the end of the two-slot arrays. -/
theorem sdl_input_init_three_joysticks :
    ∃ sdl, sdl_input_init threeJoysticks = some sdl
      ∧ sdl.num_joysticks = 3
      ∧ sdl.joysticks 2 = some 2
      ∧ sdl.num_axes 2 = 2
      ∧ sdl.num_buttons 2 = 4 :=
  ⟨_, rfl, rfl, rfl, rfl, rfl⟩

/-! ## Floating point: rounding error -/

/-- `log2Fuel` with enough fuel is the floor of the base-2 logarithm. -/
theorem log2Fuel_spec : ∀ (fuel n : Nat), 0 < n → n ≤ fuel →
    2 ^ log2Fuel fuel n ≤ n ∧ n < 2 ^ (log2Fuel fuel n + 1)
  | 0, n, h0, hf => by omega
  | fuel + 1, n, h0, hf => by
    unfold log2Fuel
    by_cases h2 : 2 ≤ n
    · rw [if_pos h2]
      obtain ⟨a, b⟩ := log2Fuel_spec fuel (n / 2) (Nat.div_pos h2 (by norm_num)) (by omega)
      constructor
      · rw [pow_succ]; omega
      · rw [pow_succ]; omega
    · rw [if_neg h2]
      simp
      omega

/-- `ilog2 q` is the exponent of the binade of `q`: `2^ilog2 q ≤ |q| < 2^(ilog2 q + 1)`. -/
theorem ilog2_spec (q : ℚ) (hq : q ≠ 0) :
    (2 : ℚ) ^ ilog2 q ≤ |q| ∧ |q| < (2 : ℚ) ^ (ilog2 q + 1) := by
  have hn0 : 0 < q.num.natAbs := Int.natAbs_pos.mpr (Rat.num_ne_zero.mpr hq)
  have hd0 : 0 < q.den := q.den_pos
  obtain ⟨n1, n2⟩ := log2Fuel_spec q.num.natAbs q.num.natAbs hn0 le_rfl
  obtain ⟨d1, d2⟩ := log2Fuel_spec q.den q.den hd0 le_rfl
  have habs : |q| = (q.num.natAbs : ℚ) / (q.den : ℚ) := by
    conv_lhs => rw [← Rat.num_div_den q]
    rw [abs_div, Nat.cast_natAbs, Int.cast_abs]
    congr 1
    exact abs_of_pos (by exact_mod_cast hd0)
  set n : ℚ := (q.num.natAbs : ℚ) with hn
  set d : ℚ := (q.den : ℚ) with hd
  set ln := log2Fuel q.num.natAbs q.num.natAbs with hln
  set ld := log2Fuel q.den q.den with hld
  have hA : ((2 : ℚ) ^ ln) ≤ n := by rw [hn]; exact_mod_cast n1
  have hA2 : n < ((2 : ℚ) ^ ln) * 2 := by
    rw [hn]; have := n2; rw [pow_succ] at this; exact_mod_cast this
  have hB : ((2 : ℚ) ^ ld) ≤ d := by rw [hd]; exact_mod_cast d1
  have hB2 : d < ((2 : ℚ) ^ ld) * 2 := by
    rw [hd]; have := d2; rw [pow_succ] at this; exact_mod_cast this
  have hApos : (0 : ℚ) < (2 : ℚ) ^ ln := by positivity
  have hBpos : (0 : ℚ) < (2 : ℚ) ^ ld := by positivity
  have hdpos : (0 : ℚ) < d := lt_of_lt_of_le hBpos hB
  have hnpos : (0 : ℚ) < n := lt_of_lt_of_le hApos hA
  have hpow : (2 : ℚ) ^ ((ln : ℤ) - (ld : ℤ)) = (2 : ℚ) ^ ln / (2 : ℚ) ^ ld := by
    rw [zpow_sub₀ (by norm_num : (2 : ℚ) ≠ 0), zpow_natCast, zpow_natCast]
  unfold ilog2
  simp only
  rw [← hln, ← hld]
  by_cases hc : (2 : ℚ) ^ ((ln : ℤ) - (ld : ℤ)) ≤ |q|
  · rw [if_pos hc]
    refine ⟨hc, ?_⟩
    rw [zpow_add_one₀ (by norm_num : (2 : ℚ) ≠ 0), hpow, habs, div_mul_eq_mul_div,
      div_lt_div_iff₀ hdpos hBpos]
    nlinarith
  · rw [if_neg hc]
    have hc2 : |q| < (2 : ℚ) ^ ((ln : ℤ) - (ld : ℤ)) := lt_of_not_le hc
    refine ⟨?_, ?_⟩
    · rw [zpow_sub_one₀ (by norm_num : (2 : ℚ) ≠ 0), hpow, habs, ← div_eq_mul_inv, div_div,
        div_le_div_iff₀ (by positivity) hdpos]
      nlinarith
    · rw [sub_add_cancel]
      exact hc2

/-- Rounding to the nearest integer moves a number by at most one half. -/
theorem roundHalfEven_err (q : ℚ) : |((roundHalfEven q : ℤ) : ℚ) - q| ≤ 1 / 2 := by
  have h1 := Int.floor_le q
  have h2 := Int.lt_floor_add_one q
  unfold roundHalfEven
  simp only
  rw [abs_le]
  split_ifs <;> push_cast <;> constructor <;> linarith

/-- The relative error of one rounding to `p` bits is at most `2^-p`. -/
theorem rnd_err (p : ℕ) (q : ℚ) : |rnd p q - q| ≤ |q| / 2 ^ p := by
  unfold rnd
  by_cases hq : q = 0
  · simp [hq]
  · rw [if_neg hq]
    simp only
    obtain ⟨hlo, _⟩ := ilog2_spec q hq
    set e : ℤ := ilog2 q - ((p : ℤ) - 1) with he
    have hE : (0 : ℚ) < (2 : ℚ) ^ e := by positivity
    have hr := roundHalfEven_err (q / (2 : ℚ) ^ e)
    have hfac : ((roundHalfEven (q / (2 : ℚ) ^ e) : ℤ) : ℚ) * (2 : ℚ) ^ e - q =
        (((roundHalfEven (q / (2 : ℚ) ^ e) : ℤ) : ℚ) - q / (2 : ℚ) ^ e) * (2 : ℚ) ^ e := by
      field_simp
    rw [hfac, abs_mul, abs_of_pos hE]
    have hEeq : (2 : ℚ) ^ e = (2 : ℚ) ^ ilog2 q / 2 ^ p * 2 := by
      rw [he, zpow_sub₀ (by norm_num : (2 : ℚ) ≠ 0), zpow_sub₀ (by norm_num : (2 : ℚ) ≠ 0),
        zpow_natCast, zpow_one]
      field_simp
    have h2p : (0 : ℚ) < 2 ^ p := by positivity
    calc |((roundHalfEven (q / (2 : ℚ) ^ e) : ℤ) : ℚ) - q / (2 : ℚ) ^ e| * (2 : ℚ) ^ e
        ≤ 1 / 2 * (2 : ℚ) ^ e := mul_le_mul_of_nonneg_right hr hE.le
      _ = (2 : ℚ) ^ ilog2 q / 2 ^ p := by rw [hEeq]; ring
      _ ≤ |q| / 2 ^ p := div_le_div_of_nonneg_right hlo h2p.le

/-- Rounding a non-negative number: relative bounds. -/
theorem rnd_bounds_of_nonneg (p : ℕ) (q : ℚ) (hq : 0 ≤ q) :
    q - q / 2 ^ p ≤ rnd p q ∧ rnd p q ≤ q + q / 2 ^ p := by
  have h := rnd_err p q
  rw [abs_of_nonneg hq, abs_le] at h
  constructor <;> linarith [h.1, h.2]

/-- Rounding a non-positive number: relative bounds. -/
theorem rnd_bounds_of_nonpos (p : ℕ) (q : ℚ) (hq : q ≤ 0) :
    q + q / 2 ^ p ≤ rnd p q ∧ rnd p q ≤ q - q / 2 ^ p := by
  have h := rnd_err p q
  rw [abs_of_nonpos hq, abs_le] at h
  constructor
  · have := h.1; rw [neg_div] at this; linarith
  · have := h.2; rw [neg_div] at this; linarith

/-- Rounding keeps a non-negative number non-negative. -/
theorem rnd_nonneg (p : ℕ) (q : ℚ) (hq : 0 ≤ q) : 0 ≤ rnd p q := by
  have h := (rnd_bounds_of_nonneg p q hq).1
  have h1 : q / 2 ^ p ≤ q := div_le_self hq (one_le_pow₀ (by norm_num))
  linarith

/-- A value below `2^k` has a binade exponent below `k`. -/
theorem ilog2_lt_of_abs_lt (x : ℚ) (hx : x ≠ 0) (k : ℤ) (h : |x| < (2 : ℚ) ^ k) :
    ilog2 x < k := by
  have h1 : (2 : ℚ) ^ ilog2 x < (2 : ℚ) ^ k := lt_of_le_of_lt (ilog2_spec x hx).1 h
  exact (zpow_lt_zpow_iff_right₀ (by norm_num : (1 : ℚ) < 2)).1 h1

/-- A value of at least `2^k` has a binade exponent of at least `k`. -/
theorem le_ilog2_of_le_abs (x : ℚ) (hx : x ≠ 0) (k : ℤ) (h : (2 : ℚ) ^ k ≤ |x|) :
    k ≤ ilog2 x := by
  have h1 : (2 : ℚ) ^ k < (2 : ℚ) ^ (ilog2 x + 1) := lt_of_le_of_lt h (ilog2_spec x hx).2
  have h2 := (zpow_lt_zpow_iff_right₀ (by norm_num : (1 : ℚ) < 2)).1 h1
  omega

/-- An integer rounds to itself. -/
theorem roundHalfEven_intCast (k : ℤ) : roundHalfEven (k : ℚ) = k := by
  unfold roundHalfEven
  simp

/-- Rounding to the nearest integer does not cross an integer from above. -/
theorem le_roundHalfEven (k : ℤ) (y : ℚ) (h : (k : ℚ) ≤ y) : k ≤ roundHalfEven y := by
  have h1 : k ≤ ⌊y⌋ := Int.le_floor.mpr h
  unfold roundHalfEven
  simp only
  split_ifs <;> omega

/-- Rounding to `p` bits does not cross an integer from above: a value that is at
least the integer `n`, and below `2^p` in magnitude, rounds to at least `n`. -/
theorem rnd_ge_int (p : ℕ) (x : ℚ) (n : ℤ) (hx : |x| < (2 : ℚ) ^ p) (hn : (n : ℚ) ≤ x) :
    (n : ℚ) ≤ rnd p x := by
  unfold rnd
  by_cases h0 : x = 0
  · rw [if_pos h0]
    rw [h0] at hn
    exact hn
  · rw [if_neg h0]
    simp only
    have hlt := ilog2_lt_of_abs_lt x h0 (p : ℤ) (by rw [zpow_natCast]; exact hx)
    set e : ℤ := ilog2 x - ((p : ℤ) - 1) with he
    obtain ⟨j, hj⟩ : ∃ j : ℕ, (j : ℤ) = -e := ⟨(-e).toNat, Int.toNat_of_nonneg (by omega)⟩
    have hE : (2 : ℚ) ^ e = ((2 : ℚ) ^ j)⁻¹ := by
      rw [show e = -(j : ℤ) by omega, zpow_neg, zpow_natCast]
    have h2j : (0 : ℚ) < (2 : ℚ) ^ j := by positivity
    have hk : ((n * 2 ^ j : ℤ) : ℚ) ≤ x / (2 : ℚ) ^ e := by
      rw [hE, div_inv_eq_mul]
      push_cast
      exact mul_le_mul_of_nonneg_right hn h2j.le
    have h3 : ((n * 2 ^ j : ℤ) : ℚ) ≤ ((roundHalfEven (x / (2 : ℚ) ^ e) : ℤ) : ℚ) := by
      exact_mod_cast le_roundHalfEven _ _ hk
    calc (n : ℚ) = ((n * 2 ^ j : ℤ) : ℚ) * (2 : ℚ) ^ e := by
          rw [hE]; push_cast; field_simp
      _ ≤ ((roundHalfEven (x / (2 : ℚ) ^ e) : ℤ) : ℚ) * (2 : ℚ) ^ e :=
          mul_le_mul_of_nonneg_right h3 (by positivity)

/-- A value that is an integer multiple of `2^j`, with `j` at least the exponent of
its unit in the last place, is representable: rounding returns it unchanged. -/
theorem rnd_eq_self (p : ℕ) (x : ℚ) (k j : ℤ) (hx : x = (k : ℚ) * (2 : ℚ) ^ j)
    (hj : ilog2 x - ((p : ℤ) - 1) ≤ j) : rnd p x = x := by
  unfold rnd
  by_cases h0 : x = 0
  · rw [if_pos h0, h0]
  · rw [if_neg h0]
    simp only
    obtain ⟨e, he⟩ : ∃ e : ℤ, e = ilog2 x - ((p : ℤ) - 1) := ⟨_, rfl⟩
    rw [← he] at hj ⊢
    obtain ⟨i, hi⟩ : ∃ i : ℕ, (i : ℤ) = j - e := ⟨(j - e).toNat, Int.toNat_of_nonneg (by omega)⟩
    have hE : (0 : ℚ) < (2 : ℚ) ^ e := by positivity
    have hje : (2 : ℚ) ^ j = (2 : ℚ) ^ i * (2 : ℚ) ^ e := by
      rw [← zpow_natCast (2 : ℚ) i, hi, ← zpow_add₀ (by norm_num : (2 : ℚ) ≠ 0), sub_add_cancel]
    have hq : x / (2 : ℚ) ^ e = ((k * 2 ^ i : ℤ) : ℚ) := by
      rw [hx, hje]
      push_cast
      field_simp
      ring
    rw [hq, roundHalfEven_intCast, ← hq]
    field_simp

/-! ## The letterboxed viewport -/

/-- The scaled integer of the target aspect 4/3 is 1333. -/
theorem desired_1000_eq : desired_1000 = some 1333 := by decide!

/-- The `float` value of the target aspect. -/
theorem desired_aspect_eq : f32 SNES_ASPECT_RATIO = 11184811 / 8388608 := by decide!

/-- What a defined conversion to `int` returns. -/
theorem f2i_eq_some (q : ℚ) (t : Int) (h : f2i q = some t) :
    isInt32 t ∧ t = if 0 ≤ q then ⌊q⌋ else ⌈q⌉ := by
  unfold f2i at h
  simp only at h
  by_cases hc : isInt32 (if 0 ≤ q then ⌊q⌋ else ⌈q⌉)
  · rw [if_pos hc] at h
    injection h with h
    subst h
    exact ⟨hc, rfl⟩
  · rw [if_neg hc] at h
    cases h

/-- Conversion to `int` of a non-negative value below `2^31` is its floor. -/
theorem f2i_of_nonneg (q : ℚ) (h0 : 0 ≤ q) (h1 : q < 2147483648) : f2i q = some ⌊q⌋ := by
  unfold f2i
  simp only [h0, if_true]
  have hf0 : (0 : Int) ≤ ⌊q⌋ := Int.floor_nonneg.mpr h0
  have hf1 : ⌊q⌋ < 2147483648 := by
    have : ((⌊q⌋ : ℤ) : ℚ) < ((2147483648 : ℤ) : ℚ) := lt_of_le_of_lt (Int.floor_le q) (by simpa using h1)
    exact_mod_cast this
  rw [if_pos]
  unfold isInt32
  constructor <;> omega

/-- Bounds on the `double` value that is rounded to `delta` in the
wider-than-target branch of `set_viewport`, from the scaled aspect being at least
1334 and an `int`. -/
theorem wide_delta_bounds (D : ℚ) (h1 : 1334 ≤ f32 (D * 1000))
    (h2 : f32 (D * 1000) < 2147483648) :
    1 / 5000000 ≤ f64 (f64 (f64 (f32 (11184811 / 8388608 / D) - 1) / 2) + 1 / 2)
      ∧ f64 (f64 (f64 (f32 (11184811 / 8388608 / D) - 1) / 2) + 1 / 2) ≤ 49985 / 100000 := by
  unfold f32 f64 at *
  have hD0 : 0 < D := by
    by_contra hneg
    have hle : D * 1000 ≤ 0 := by linarith [not_lt.mp hneg]
    have := (rnd_bounds_of_nonpos 24 (D * 1000) hle).2
    have h3 : D * 1000 / 2 ^ 24 ≤ 0 := div_nonpos_of_nonpos_of_nonneg hle (by positivity)
    norm_num at this h3
    linarith
  obtain ⟨s1, s2⟩ := rnd_bounds_of_nonneg 24 (D * 1000) (by positivity)
  norm_num at s1 s2
  have hDlo : 13339 / 10000 ≤ D := by linarith
  have hDhi : D ≤ 2147484 := by linarith
  set x : ℚ := 11184811 / 8388608 / D with hx
  have hxD : x * D = 11184811 / 8388608 := by rw [hx]; field_simp; ring
  have hx0 : 0 < x := by rw [hx]; positivity
  have hxhi : x ≤ 9996 / 10000 := by
    have := mul_le_mul_of_nonneg_left hDlo hx0.le
    linarith
  have hxlo : 6 / 10000000 ≤ x := by
    have := mul_le_mul_of_nonneg_left hDhi hx0.le
    linarith
  obtain ⟨r1, r2⟩ := rnd_bounds_of_nonneg 24 x hx0.le
  set r : ℚ := rnd 24 x with hr
  norm_num at r1 r2
  have hr1 : r - 1 ≤ 0 := by linarith
  obtain ⟨a1, a2⟩ := rnd_bounds_of_nonpos 53 (r - 1) hr1
  set t1 : ℚ := rnd 53 (r - 1) with ht1
  norm_num at a1 a2
  have ht1' : t1 / 2 ≤ 0 := by linarith
  obtain ⟨b1, b2⟩ := rnd_bounds_of_nonpos 53 (t1 / 2) ht1'
  set t2 : ℚ := rnd 53 (t1 / 2) with ht2
  norm_num at b1 b2
  have hu0 : 0 ≤ t2 + 1 / 2 := by linarith
  obtain ⟨c1, c2⟩ := rnd_bounds_of_nonneg 53 (t2 + 1 / 2) hu0
  norm_num at c1 c2
  constructor <;> linarith

/-- Bounds on `delta` itself, the `float` rounding of that value. -/
theorem wide_delta_float_bounds (t3 : ℚ) (h1 : 1 / 5000000 ≤ t3) (h2 : t3 ≤ 49985 / 100000) :
    1 / 10000000 ≤ f32 t3 ∧ f32 t3 ≤ 4999 / 10000 := by
  unfold f32
  obtain ⟨d1, d2⟩ := rnd_bounds_of_nonneg 24 t3 (by linarith)
  norm_num at d1 d2
  constructor <;> linarith

/-- In the wider-than-target branch `1/2 - delta` is a `double`: the subtraction
is exact. -/
theorem wide_half_minus_delta_exact (t3 : ℚ) (h1 : 1 / 5000000 ≤ t3)
    (h2 : t3 ≤ 49985 / 100000) : f64 (1 / 2 - f32 t3) = 1 / 2 - f32 t3 := by
  obtain ⟨d1, d2⟩ := wide_delta_float_bounds t3 h1 h2
  have ht0 : t3 ≠ 0 := by intro h; rw [h] at h1; norm_num at h1
  have habs : |t3| = t3 := abs_of_nonneg (by linarith)
  have e1 : (-31 : ℤ) ≤ ilog2 t3 := by
    apply le_ilog2_of_le_abs t3 ht0
    rw [habs]
    norm_num
    linarith
  have e2 : ilog2 t3 < 0 := by
    apply ilog2_lt_of_abs_lt t3 ht0
    rw [habs]
    norm_num
    linarith
  have hz0 : (1 : ℚ) / 2 - f32 t3 ≠ 0 := by intro h; linarith
  have hzabs : |(1 : ℚ) / 2 - f32 t3| = 1 / 2 - f32 t3 := abs_of_nonneg (by linarith)
  have e3 : ilog2 (1 / 2 - f32 t3) < -1 := by
    apply ilog2_lt_of_abs_lt _ hz0
    rw [hzabs]
    norm_num
    linarith
  have hdelta : f32 t3 =
      ((roundHalfEven (t3 / (2 : ℚ) ^ (ilog2 t3 - (((24 : ℕ) : ℤ) - 1))) : ℤ) : ℚ)
        * (2 : ℚ) ^ (ilog2 t3 - (((24 : ℕ) : ℤ) - 1)) := by
    unfold f32 rnd
    rw [if_neg ht0]
  obtain ⟨e, he⟩ : ∃ e : ℤ, e = ilog2 t3 - (((24 : ℕ) : ℤ) - 1) := ⟨_, rfl⟩
  rw [← he] at hdelta
  obtain ⟨R, hR⟩ : ∃ R : ℤ, R = roundHalfEven (t3 / (2 : ℚ) ^ e) := ⟨_, rfl⟩
  rw [← hR] at hdelta
  obtain ⟨i, hi⟩ : ∃ i : ℕ, (i : ℤ) = -1 - e :=
    ⟨(-1 - e).toNat, Int.toNat_of_nonneg (by push_cast at he; omega)⟩
  have hhalf : (1 : ℚ) / 2 = (2 : ℚ) ^ i * (2 : ℚ) ^ e := by
    rw [← zpow_natCast (2 : ℚ) i, hi, ← zpow_add₀ (by norm_num : (2 : ℚ) ≠ 0), sub_add_cancel]
    norm_num
  unfold f64
  apply rnd_eq_self 53 _ (2 ^ i - R) e
  · rw [hdelta, hhalf]
    push_cast
    ring
  · push_cast at he ⊢
    omega

/-- The two numbers passed to `glViewport` in the wider-than-target branch, before
conversion to `int`: both are non-negative, the width is below the surface width,
and twice the offset plus the width is the surface width up to rounding error. -/
theorem wide_viewport_numbers (w delta : ℚ) (hw0 : 1 ≤ w) (hw1 : w < 2147483648)
    (hd0 : 1 / 10000000 ≤ delta) (hd1 : delta ≤ 4999 / 10000) :
    0 ≤ f64 (w * f64 (1 / 2 - delta))
      ∧ f64 (w * f64 (1 / 2 - delta)) < 2147483648
      ∧ 0 ≤ f64 (f64 (2 * w) * delta)
      ∧ f64 (f64 (2 * w) * delta) < w
      ∧ w - 1 / 1000 ≤ 2 * f64 (w * f64 (1 / 2 - delta)) + f64 (f64 (2 * w) * delta)
      ∧ 2 * f64 (w * f64 (1 / 2 - delta)) + f64 (f64 (2 * w) * delta) ≤ w + 1 / 1000 := by
  unfold f64
  have hw : 0 ≤ w := by linarith
  have hdel : 0 ≤ delta := by linarith
  have hm1 := mul_le_mul_of_nonneg_left hd1 hw
  have hm0 : 0 ≤ w * delta := mul_nonneg hw hdel
  have ha0 : 0 ≤ 1 / 2 - delta := by linarith
  obtain ⟨a1, a2⟩ := rnd_bounds_of_nonneg 53 (1 / 2 - delta) ha0
  have ha' : 0 ≤ rnd 53 (1 / 2 - delta) := rnd_nonneg 53 _ ha0
  have p1 := mul_le_mul_of_nonneg_left a1 hw
  have p2 := mul_le_mul_of_nonneg_left a2 hw
  have hP0 : 0 ≤ w * rnd 53 (1 / 2 - delta) := mul_nonneg hw ha'
  obtain ⟨x1, x2⟩ := rnd_bounds_of_nonneg 53 (w * rnd 53 (1 / 2 - delta)) hP0
  have hX0 := rnd_nonneg 53 (w * rnd 53 (1 / 2 - delta)) hP0
  have h2w : 0 ≤ 2 * w := by linarith
  obtain ⟨t1, t2⟩ := rnd_bounds_of_nonneg 53 (2 * w) h2w
  have hT0 := rnd_nonneg 53 (2 * w) h2w
  have q1 := mul_le_mul_of_nonneg_right t1 hdel
  have q2 := mul_le_mul_of_nonneg_right t2 hdel
  have hQ0 : 0 ≤ rnd 53 (2 * w) * delta := mul_nonneg hT0 hdel
  obtain ⟨v1, v2⟩ := rnd_bounds_of_nonneg 53 (rnd 53 (2 * w) * delta) hQ0
  have hV0 := rnd_nonneg 53 (rnd 53 (2 * w) * delta) hQ0
  refine ⟨hX0, ?_, hV0, ?_, ?_, ?_⟩ <;> linarith

/-- In the wider-than-target branch the truncated offset and width leave less
than three pixels of the surface width unaccounted for: twice the offset plus the
width is at least the surface width minus 2. -/
theorem wide_viewport_centred (w : ℤ) (t3 : ℚ) (hw0 : 1 ≤ w) (hw1 : w < 2147483648)
    (h1 : 1 / 5000000 ≤ t3) (h2 : t3 ≤ 49985 / 100000) :
    w - 2 ≤ 2 * ⌊f64 ((w : ℚ) * f64 (1 / 2 - f32 t3))⌋ + ⌊f64 (f64 (2 * (w : ℚ)) * f32 t3)⌋ := by
  obtain ⟨d1, d2⟩ := wide_delta_float_bounds t3 h1 h2
  have hwq0 : (1 : ℚ) ≤ (w : ℚ) := by exact_mod_cast hw0
  have hwq1 : (w : ℚ) < 2147483648 := by exact_mod_cast hw1
  rw [wide_half_minus_delta_exact t3 h1 h2]
  have hT : f64 (2 * (w : ℚ)) = 2 * (w : ℚ) := by
    unfold f64
    have h2w0 : 2 * (w : ℚ) ≠ 0 := by intro h; linarith
    apply rnd_eq_self 53 _ (2 * w) 0
    · push_cast; simp
    · have := ilog2_lt_of_abs_lt (2 * (w : ℚ)) h2w0 53 (by
        rw [abs_of_nonneg (by linarith)]
        norm_num
        linarith)
      push_cast
      omega
  rw [hT]
  set delta : ℚ := f32 t3 with hdelta
  have hm0 : 0 ≤ (w : ℚ) * delta := mul_nonneg (by linarith) (by linarith)
  have hm1 : (w : ℚ) * delta ≤ (w : ℚ) * (4999 / 10000) :=
    mul_le_mul_of_nonneg_left d2 (by linarith)
  have hX := Int.lt_floor_add_one (f64 ((w : ℚ) * (1 / 2 - delta)))
  have hV := Int.lt_floor_add_one (f64 (2 * (w : ℚ) * delta))
  set vx : ℤ := ⌊f64 ((w : ℚ) * (1 / 2 - delta))⌋ with hvx
  set vw : ℤ := ⌊f64 (2 * (w : ℚ) * delta)⌋ with hvw
  have hC : (w : ℚ) * (1 / 2 - delta) < ((vx + 1 : ℤ) : ℚ) := by
    by_contra hcon
    have := rnd_ge_int 53 ((w : ℚ) * (1 / 2 - delta)) (vx + 1) (by
      rw [abs_of_nonneg (by nlinarith)]
      norm_num
      nlinarith) (not_lt.mp hcon)
    unfold f64 at hX
    push_cast at this
    linarith
  have hD : 2 * (w : ℚ) * delta < ((vw + 1 : ℤ) : ℚ) := by
    by_contra hcon
    have := rnd_ge_int 53 (2 * (w : ℚ) * delta) (vw + 1) (by
      rw [abs_of_nonneg (by nlinarith)]
      norm_num
      nlinarith) (not_lt.mp hcon)
    unfold f64 at hV
    push_cast at this
    linarith
  by_contra hlt
  have h3 : 2 * vx + vw + 3 ≤ w := by omega
  have h4 : ((2 * vx + vw + 3 : ℤ) : ℚ) ≤ (w : ℚ) := by exact_mod_cast h3
  push_cast at h4 hC hD
  nlinarith

/-- C7, amended. With aspect lock on, a positive `int` width, and the scaled
integer of the display aspect strictly above the scaled integer of 4/3,
`set_viewport` is defined and sets a viewport with y-offset 0 and the surface
height, a width strictly below the surface width, and centred up to the
truncation to whole pixels: the right margin is at least the left margin and
exceeds it by at most 2. The output size recorded is the viewport extent. -/
theorem set_viewport_wide (g : VideoGlobals) (width height a b : Int)
    (hk : g.keep_aspect = true) (hw0 : 0 < width) (hw1 : isInt32 width)
    (ha : aspect_1000 width height = some a) (hb : desired_1000 = some b) (hab : b < a) :
    ∃ vx vw : Int,
      set_viewport g width height =
          some { g with
            viewport := { x := vx, y := 0, width := vw, height := height }
            gl_width := toU32 vw
            gl_height := toU32 height }
        ∧ vw < width
        ∧ vx ≤ width - vx - vw
        ∧ width - vx - vw ≤ vx + 2 := by
  have hb2 : b = 1333 := by
    have := desired_1000_eq
    rw [hb] at this
    exact Option.some.inj this
  subst hb2
  unfold aspect_1000 at ha
  unfold desired_1000 at hb
  cases hdiv : f32_div (f32 width) (f32 height) with
  | infinite n => rw [hdiv] at ha; simp at ha
  | nan => rw [hdiv] at ha; simp at ha
  | finite D =>
    rw [hdiv] at ha
    simp only at ha
    obtain ⟨hint, hval⟩ := f2i_eq_some _ _ ha
    have hS1 : 1334 ≤ f32 (D * 1000) := by
      by_cases h0 : 0 ≤ f32 (D * 1000)
      · rw [if_pos h0] at hval
        have h1 : ((1334 : ℤ) : ℚ) ≤ ((⌊f32 (D * 1000)⌋ : ℤ) : ℚ) := by
          exact_mod_cast (by omega : (1334 : ℤ) ≤ ⌊f32 (D * 1000)⌋)
        have h2 := Int.floor_le (f32 (D * 1000))
        push_cast at h1
        linarith
      · rw [if_neg h0] at hval
        have : ⌈f32 (D * 1000)⌉ ≤ 0 := Int.ceil_le.mpr (by push_cast; linarith [not_le.mp h0])
        omega
    have hS2 : f32 (D * 1000) < 2147483648 := by
      have h0 : 0 ≤ f32 (D * 1000) := by linarith
      rw [if_pos h0] at hval
      have h2 := Int.lt_floor_add_one (f32 (D * 1000))
      have h3 : ((⌊f32 (D * 1000)⌋ : ℤ) : ℚ) + 1 ≤ ((2147483648 : ℤ) : ℚ) := by
        have : ⌊f32 (D * 1000)⌋ + 1 ≤ 2147483648 := by
          unfold isInt32 at hint
          omega
        exact_mod_cast this
      push_cast at h3
      linarith
    obtain ⟨ht0, ht1⟩ := wide_delta_bounds D hS1 hS2
    obtain ⟨hd0, hd1⟩ := wide_delta_float_bounds _ ht0 ht1
    have hwi1 : width < 2147483648 := hw1.2
    have hwq0 : (1 : ℚ) ≤ (width : ℚ) := by exact_mod_cast (by omega : (1 : ℤ) ≤ width)
    have hwq1 : (width : ℚ) < 2147483648 := by exact_mod_cast hwi1
    obtain ⟨hX0, hX1, hV0, hV1, _, hs2⟩ :=
      wide_viewport_numbers (width : ℚ) _ hwq0 hwq1 hd0 hd1
    have hcen := wide_viewport_centred width _ (by omega) hwi1 ht0 ht1
    have fX := f2i_of_nonneg _ hX0 hX1
    have fV := f2i_of_nonneg _ hV0 (lt_trans hV1 hwq1)
    have hfX := Int.floor_le (f64 ((width : ℚ) *
      f64 (1 / 2 - f32 (f64 (f64 (f64 (f32 (11184811 / 8388608 / D) - 1) / 2) + 1 / 2)))))
    have hfV := Int.floor_le (f64 (f64 (2 * (width : ℚ)) *
      f32 (f64 (f64 (f64 (f32 (11184811 / 8388608 / D) - 1) / 2) + 1 / 2))))
    refine ⟨⌊f64 ((width : ℚ) *
        f64 (1 / 2 - f32 (f64 (f64 (f64 (f32 (11184811 / 8388608 / D) - 1) / 2) + 1 / 2))))⌋,
      ⌊f64 (f64 (2 * (width : ℚ)) *
        f32 (f64 (f64 (f64 (f32 (11184811 / 8388608 / D) - 1) / 2) + 1 / 2)))⌋, ?_, ?_, ?_, ?_⟩
    · unfold set_viewport
      rw [if_pos hk]
      simp only
      rw [hdiv]
      simp only
      rw [ha, hb]
      simp only
      rw [if_pos (by exact hab)]
      rw [desired_aspect_eq, fX, fV]
    · have : ((⌊f64 (f64 (2 * (width : ℚ)) *
          f32 (f64 (f64 (f64 (f32 (11184811 / 8388608 / D) - 1) / 2) + 1 / 2)))⌋ : ℤ) : ℚ)
          < (width : ℚ) := lt_of_le_of_lt hfV hV1
      exact_mod_cast this
    · generalize ⌊f64 ((width : ℚ) *
        f64 (1 / 2 - f32 (f64 (f64 (f64 (f32 (11184811 / 8388608 / D) - 1) / 2) + 1 / 2))))⌋
        = vx at hfX hcen ⊢
      generalize ⌊f64 (f64 (2 * (width : ℚ)) *
        f32 (f64 (f64 (f64 (f32 (11184811 / 8388608 / D) - 1) / 2) + 1 / 2)))⌋ = vw at hfV hcen ⊢
      have : ((2 * vx + vw : ℤ) : ℚ) < ((width + 1 : ℤ) : ℚ) := by
        push_cast
        linarith
      have : 2 * vx + vw < width + 1 := by exact_mod_cast this
      omega
    · omega

/-- C7, counterexample. A 1000x500 display with aspect lock on is wider than 4/3
(scaled aspect 2000 against 1333); `set_viewport` sets offset 166 and width 666,
so the left margin is 166 and the right margin is 1000 - 166 - 666 = 168. -/
theorem set_viewport_wide_not_symmetric :
    aspect_1000 1000 500 = some 2000
      ∧ desired_1000 = some 1333
      ∧ set_viewport sampleVideoGlobals 1000 500 =
        some { sampleVideoGlobals with
          viewport := { x := 166, y := 0, width := 666, height := 500 }
          gl_width := 666
          gl_height := 500 }
      ∧ (166 : Int) ≠ 1000 - 166 - 666 := by
  decide!

/-- C7, amended, at a sample input: a 1366x768 display (scaled aspect 1778). -/
theorem set_viewport_wide_witness :
    (sampleVideoGlobals.keep_aspect = true ∧ (0 : Int) < 1366 ∧ isInt32 1366
        ∧ aspect_1000 1366 768 = some 1778 ∧ desired_1000 = some 1333
        ∧ (1333 : Int) < 1778)
      ∧ ∃ vx vw : Int,
        set_viewport sampleVideoGlobals 1366 768 =
            some { sampleVideoGlobals with
              viewport := { x := vx, y := 0, width := vw, height := 768 }
              gl_width := toU32 vw
              gl_height := toU32 768 }
          ∧ vw < 1366
          ∧ vx ≤ 1366 - vx - vw
          ∧ 1366 - vx - vw ≤ vx + 2 :=
  ⟨by decide!,
    set_viewport_wide sampleVideoGlobals 1366 768 1778 1333 rfl (by decide) (by decide)
      (by decide!) (by decide!) (by decide)⟩

/-- The scaled aspect is the one of `float` arithmetic. On every display height up
to a few thousand pixels it is the exact quotient truncated to 3 decimals; on a
26679999x20000000 surface the exact quotient truncates to 1333 while the `float`
product rounds up to 1334. -/
theorem aspect_1000_float_rounding :
    aspect_1000 26679999 20000000 = some 1334
      ∧ ⌊(1000 * 26679999 / 20000000 : ℚ)⌋ = 1333
      ∧ aspect_1000 1333 1000 = some 1333
      ∧ aspect_1000 667 500 = some 1334 := by
  decide!

/-! ## Video backend: theorems -/

/-- Conversion of `int` to `unsigned` loses nothing on the values of an `int`. -/
theorem toU32_injective (x y : Int) (hx : isInt32 x) (hy : isInt32 y)
    (h : toU32 x = toU32 y) : x = y := by
  unfold isInt32 at hx hy
  unfold toU32 at h
  have h1 : (x % 4294967296) = (y % 4294967296) := by
    have hx0 : 0 ≤ x % 4294967296 := Int.emod_nonneg _ (by norm_num)
    have hy0 : 0 ≤ y % 4294967296 := Int.emod_nonneg _ (by norm_num)
    have := congrArg (fun n : Nat => (n : Int)) h
    simpa [Int.toNat_of_nonneg hx0, Int.toNat_of_nonneg hy0] using this
  omega

/-- C8. Whatever the backend state, after a frame of size `(width, height)`: a
frame of the same size leaves the texture-coordinate quad unchanged and writes no
zero-filled buffer to the texture; a frame of another size sets the quad to the
one of the new size and writes a zero-filled buffer exactly once, over the whole
texture. -/
theorem gl_frame_resolution_change (gl : gl_t) (width height pitch width2 height2 pitch2 : Int)
    (hw : isInt32 width) (hh : isInt32 height) (hw2 : isInt32 width2)
    (hh2 : isInt32 height2) :
    ((width2, height2) = (width, height) →
        (gl_frame (gl_frame gl width height pitch).1 width2 height2 pitch2).1.tex_coords =
            (gl_frame gl width height pitch).1.tex_coords
          ∧ (gl_frame (gl_frame gl width height pitch).1 width2 height2 pitch2).2.filter
              is_texture_clear = [])
      ∧ ((width2, height2) ≠ (width, height) →
        (gl_frame (gl_frame gl width height pitch).1 width2 height2 pitch2).1.tex_coords =
            frame_tex_coords width2 height2 gl.tex_w gl.tex_h
          ∧ (gl_frame (gl_frame gl width height pitch).1 width2 height2 pitch2).2.filter
              is_texture_clear =
            [GLCall.glTexSubImage2D 0 0 gl.tex_w gl.tex_h PixelSource.zeros]) := by
  have hlast : (gl_frame gl width height pitch).1.last_width = toU32 width
      ∧ (gl_frame gl width height pitch).1.last_height = toU32 height
      ∧ (gl_frame gl width height pitch).1.tex_w = gl.tex_w
      ∧ (gl_frame gl width height pitch).1.tex_h = gl.tex_h := by
    unfold gl_frame
    split
    · simp
    · rename_i hc
      simp only [Bool.or_eq_true, bne_iff_ne, ne_eq, not_or, not_not] at hc
      simp [hc.1, hc.2]
  obtain ⟨h1, h2, h3, h4⟩ := hlast
  constructor
  · intro he
    have he1 : width2 = width := congrArg Prod.fst he
    have he2 : height2 = height := congrArg Prod.snd he
    subst he1 he2
    generalize gl_frame gl width2 height2 pitch = r at h1 h2 h3 h4 ⊢
    have hc : (toU32 width2 != r.1.last_width || toU32 height2 != r.1.last_height) = false := by
      simp [h1, h2]
    unfold gl_frame
    rw [hc]
    simp [is_texture_clear]
  · intro hne
    generalize gl_frame gl width height pitch = r at h1 h2 h3 h4 ⊢
    have hc : (toU32 width2 != r.1.last_width || toU32 height2 != r.1.last_height) = true := by
      rw [h1, h2]
      by_contra hcon
      simp only [Bool.or_eq_true, bne_iff_ne, ne_eq, not_or, not_not] at hcon
      exact hne (Prod.ext (toU32_injective _ _ hw2 hw hcon.1)
        (toU32_injective _ _ hh2 hh hcon.2))
    unfold gl_frame
    rw [hc]
    simp [is_texture_clear, h3, h4]

/-- C8 at the spec's end-to-end input: after `gl_init` with a 320x240 window, the
frames (256,224), (256,224), (512,448). -/
theorem gl_frame_resolution_change_witness :
    gl_init sampleVideoPlatform (sampleVideo true true) =
        some (sampleGl, { sampleVideoGlobals with
          gl_width := 320, gl_height := 240, swap_control := 1,
          viewport := { x := 0, y := 0, width := 320, height := 240 } })
      ∧ (isInt32 256 ∧ isInt32 224 ∧ isInt32 512 ∧ isInt32 448)
      ∧ ((((256 : Int), (224 : Int)) = (256, 224) →
          (gl_frame (gl_frame sampleGl 256 224 512).1 256 224 512).1.tex_coords =
              (gl_frame sampleGl 256 224 512).1.tex_coords
            ∧ (gl_frame (gl_frame sampleGl 256 224 512).1 256 224 512).2.filter
                is_texture_clear = [])
        ∧ (((256 : Int), (224 : Int)) ≠ (256, 224) →
          (gl_frame (gl_frame sampleGl 256 224 512).1 256 224 512).1.tex_coords =
              frame_tex_coords 256 224 sampleGl.tex_w sampleGl.tex_h
            ∧ (gl_frame (gl_frame sampleGl 256 224 512).1 256 224 512).2.filter
                is_texture_clear =
              [GLCall.glTexSubImage2D 0 0 sampleGl.tex_w sampleGl.tex_h PixelSource.zeros]))
      ∧ ((((512 : Int), (448 : Int)) = (256, 224) →
          (gl_frame (gl_frame sampleGl 256 224 512).1 512 448 1024).1.tex_coords =
              (gl_frame sampleGl 256 224 512).1.tex_coords
            ∧ (gl_frame (gl_frame sampleGl 256 224 512).1 512 448 1024).2.filter
                is_texture_clear = [])
        ∧ (((512 : Int), (448 : Int)) ≠ (256, 224) →
          (gl_frame (gl_frame sampleGl 256 224 512).1 512 448 1024).1.tex_coords =
              frame_tex_coords 512 448 sampleGl.tex_w sampleGl.tex_h
            ∧ (gl_frame (gl_frame sampleGl 256 224 512).1 512 448 1024).2.filter
                is_texture_clear =
              [GLCall.glTexSubImage2D 0 0 sampleGl.tex_w sampleGl.tex_h PixelSource.zeros]))
      ∧ (gl_frame sampleGl 256 224 512).1.tex_coords =
          [ GLfloat.finite 0, GLfloat.finite (7 / 16), GLfloat.finite 0, GLfloat.finite 0,
            GLfloat.finite (1 / 2), GLfloat.finite 0, GLfloat.finite (1 / 2),
            GLfloat.finite (7 / 16) ]
      ∧ frame_tex_coords 512 448 sampleGl.tex_w sampleGl.tex_h =
          [ GLfloat.finite 0, GLfloat.finite (7 / 8), GLfloat.finite 0, GLfloat.finite 0,
            GLfloat.finite 1, GLfloat.finite 0, GLfloat.finite 1, GLfloat.finite (7 / 8) ] :=
  ⟨by decide!, by decide,
    gl_frame_resolution_change sampleGl 256 224 512 256 224 512
      (by decide) (by decide) (by decide) (by decide),
    gl_frame_resolution_change sampleGl 256 224 512 512 448 1024
      (by decide) (by decide) (by decide) (by decide),
    by decide!, by decide!⟩

/-- A backend state returned by `gl_init` has its `vsync` field clear, whatever
the configuration: the state is zero-filled and the field is never assigned. -/
theorem gl_init_vsync_false (p : VideoPlatform) (video : video_info_t) (gl : gl_t)
    (g : VideoGlobals) (h : gl_init p video = some (gl, g)) : gl.vsync = false := by
  unfold gl_init at h
  split_ifs at h
  all_goals
    simp only at h
    split at h
    · exact absurd h (by simp)
    · simp only [Option.some.injEq, Prod.mk.injEq] at h
      rw [← h.1]

/-- C9, evaluated at a failing input. `gl_init` with `vsync = true` returns a
handle and leaves the swap-control attribute at 1; `gl_set_nonblock_state` on
that handle with `true` leaves it at 1 instead of setting it to 0, because the
`vsync` field of the handle is false. -/
theorem gl_set_nonblock_state_noop_after_vsync_init :
    ∃ gl g, gl_init sampleVideoPlatform (sampleVideo true true) = some (gl, g)
      ∧ gl.vsync = false
      ∧ g.swap_control = 1
      ∧ (gl_set_nonblock_state gl true g).swap_control = 1
      ∧ gl_set_nonblock_state gl true g = g := by
  refine ⟨sampleGl, { sampleVideoGlobals with
          gl_width := 320, gl_height := 240, swap_control := 1,
          viewport := { x := 0, y := 0, width := 320, height := 240 } }, ?_, ?_, ?_, ?_, ?_⟩
  · decide!
  · rfl
  · rfl
  · rfl
  · rfl

/-- C6. Whenever the scaled integer of the display aspect that `set_viewport`
computes equals the scaled integer of 4/3 (this needs a height other than 0),
`set_viewport` sets the viewport to offset (0,0) and extent (width,height) and
records the output size (width,height), with or without aspect lock. -/
theorem set_viewport_equal_aspect (g : VideoGlobals) (width height : Int)
    (ha : aspect_1000 width height = desired_1000) :
    set_viewport g width height =
      some { g with
        viewport := { x := 0, y := 0, width := width, height := height }
        gl_width := toU32 width
        gl_height := toU32 height } := by
  unfold set_viewport
  by_cases hk : g.keep_aspect = true
  · rw [if_pos hk]
    have hd := desired_1000_eq
    rw [hd] at ha
    unfold desired_1000 at hd
    unfold aspect_1000 at ha
    cases hdiv : f32_div (f32 width) (f32 height) with
    | finite device_aspect =>
      rw [hdiv] at ha
      simp only at ha ⊢
      rw [ha, hd]
      simp
    | infinite n => rw [hdiv] at ha; simp at ha
    | nan => rw [hdiv] at ha; simp at ha
  · rw [if_neg hk]

/-- C6 at a sample input: a 320x240 display. -/
theorem set_viewport_equal_aspect_witness :
    aspect_1000 320 240 = desired_1000
      ∧ set_viewport sampleVideoGlobals 320 240 =
        some { sampleVideoGlobals with
          viewport := { x := 0, y := 0, width := 320, height := 240 }
          gl_width := toU32 320
          gl_height := toU32 240 } :=
  ⟨by decide!, set_viewport_equal_aspect sampleVideoGlobals 320 240 (by decide!)⟩

end SSNES
